import Mathlib

/-!
# node-odbc core (`src/odbc.cpp`): embedding and properties

The functions of `odbc.cpp` are embedded as total Lean functions.

* The driver manager is outside the sources.  A statement handle is modelled by the
  answers the driver gives to the successive calls made on it (`World`): one list per
  entry point, consumed in call order.  Once a list is used up the driver answers
  "no data" and stores nothing, so every loop of the code terminates on every script.
* An answer says what the call returned and what it stored through each output
  pointer; `none` means that the storage was left untouched, so the initial values
  assigned by the code stay visible.
* Build flags, C library functions and the contents of storage that the code reads
  without having initialised it are collected in `Env`.
* V8 values are modelled by small inductive types; an array is a list of optional
  slots because `Set(i, v)` may leave holes.
-/

namespace ODBC

/-! ## Constants of the driver manager header -/

abbrev SQLRETURN := Int

/-- Modelled from the spec: status "success" of a driver call; the header defining it
is not among the sources, the value is the ODBC one. -/
def SQL_SUCCESS : SQLRETURN := 0
/-- Modelled from the spec: status "success with info" of a driver call (ODBC value). -/
def SQL_SUCCESS_WITH_INFO : SQLRETURN := 1
/-- Modelled from the spec: status by which the driver reports completion, "no more
data" (ODBC value). -/
def SQL_NO_DATA : SQLRETURN := 100
/-- Modelled from the spec: the error status of a driver call (ODBC value). -/
def SQL_ERROR : SQLRETURN := -1
/-- Modelled from the spec: the invalid-handle status of a driver call (ODBC value). -/
def SQL_INVALID_HANDLE : SQLRETURN := -2

/-- Modelled from the spec: the header macro `SQL_SUCCEEDED`, true for the two success
statuses and for nothing else. -/
def SQL_SUCCEEDED (rc : SQLRETURN) : Bool :=
  rc == SQL_SUCCESS || rc == SQL_SUCCESS_WITH_INFO

/-- Modelled from the spec: the null sentinel of a length indicator (ODBC value). -/
def SQL_NULL_DATA : Int := -1
/-- Modelled from the spec: the length indicator "null-terminated" (ODBC value). -/
def SQL_NTS : Int := -3

/-- Modelled from the spec: driver type code, exact numeric. -/
def SQL_NUMERIC : Int := 2
/-- Modelled from the spec: driver type code, decimal. -/
def SQL_DECIMAL : Int := 3
/-- Modelled from the spec: driver type code, medium integer. -/
def SQL_INTEGER : Int := 4
/-- Modelled from the spec: driver type code, small integer. -/
def SQL_SMALLINT : Int := 5
/-- Modelled from the spec: driver type code, float. -/
def SQL_FLOAT : Int := 6
/-- Modelled from the spec: driver type code, real. -/
def SQL_REAL : Int := 7
/-- Modelled from the spec: driver type code, double. -/
def SQL_DOUBLE : Int := 8
/-- Modelled from the spec: driver type code, datetime. -/
def SQL_DATETIME : Int := 9
/-- Modelled from the spec: driver type code, timestamp (ODBC 2 code, as in the header). -/
def SQL_TIMESTAMP : Int := 11
/-- Modelled from the spec: driver type code, variable-length character type. -/
def SQL_VARCHAR : Int := 12
/-- Modelled from the spec: driver type code, large integer. -/
def SQL_BIGINT : Int := -5
/-- Modelled from the spec: driver type code, tiny integer. -/
def SQL_TINYINT : Int := -6
/-- Modelled from the spec: driver type code, single bit. -/
def SQL_BIT : Int := -7
/-- Modelled from the spec: driver type code, variable-length wide character type. -/
def SQL_WVARCHAR : Int := -9

/-- Modelled from the spec: C type code, narrow characters. -/
def SQL_C_CHAR : Int := 1
/-- Modelled from the spec: C type code, wide characters. -/
def SQL_C_WCHAR : Int := -8
/-- Modelled from the spec: C type code, signed 64-bit integer. -/
def SQL_C_SBIGINT : Int := -25
/-- Modelled from the spec: C type code, double. -/
def SQL_C_DOUBLE : Int := 8
/-- Modelled from the spec: C type code, single bit. -/
def SQL_C_BIT : Int := -7
/-- Modelled from the spec: C type code "default", used for the null descriptor. -/
def SQL_C_DEFAULT : Int := 99

/-- Modelled from the spec: the header macro `SQL_C_TCHAR`, the wide character C type in
a `UNICODE` build and the narrow one otherwise. -/
def SQL_C_TCHAR (unicode : Bool) : Int :=
  if unicode then SQL_C_WCHAR else SQL_C_CHAR

/-- Size in bytes of a C `double`. -/
def sizeofDouble : Int := 8
/-- Size in bytes of a `uint16_t`. -/
def sizeofUint16 : Int := 2

/-! ## Values -/

/-- A double: a dyadic rational `num / 2 ^ exp`, or one of the special values. -/
inductive Double where
  | dyadic (num : Int) (exp : Nat)
  | negZero
  | nan
  | posInf
  | negInf
  deriving DecidableEq, Repr

/-- Whether the double has an integral value (minus zero has the value 0). -/
def Double.isIntegral : Double → Bool
  | .dyadic num exp => num % (2 : Int) ^ exp == 0
  | .negZero => true
  | _ => false

/-- The integral value of a double with `isIntegral`. -/
def Double.toInt : Double → Int
  | .dyadic num exp => num / (2 : Int) ^ exp
  | _ => 0

/-- Broken-down time of the C library (`struct tm`), the fields the code sets. -/
structure Tm where
  tm_sec : Int
  tm_min : Int
  tm_hour : Int
  tm_mday : Int
  tm_mon : Int
  tm_year : Int
  tm_isdst : Int
  deriving DecidableEq, Repr

/-- The driver's timestamp structure. -/
structure SQL_TIMESTAMP_STRUCT where
  year : Int
  month : Nat
  day : Nat
  hour : Nat
  minute : Nat
  second : Nat
  fraction : Nat
  deriving DecidableEq, Repr

/-- A value handed to JavaScript by `GetColumnValue`.  The payload of `date` is the
number of milliseconds given to the `Date` constructor. -/
inductive Value where
  | undefined
  | null
  | boolean (b : Bool)
  | integer (v : Int)
  | number (v : Double)
  | date (ms : Int)
  | string (s : String)
  deriving DecidableEq, Repr

/-- A JavaScript array: `none` is a hole. -/
abbrev JsArray (α : Type) := List (Option α)

/-- The array after `array->Set(i, v)`. -/
def JsArray.set {α : Type} (a : JsArray α) (i : Nat) (v : α) : JsArray α :=
  if i < a.length then List.set a i (some v)
  else a ++ List.replicate (i - a.length) none ++ [some v]

/-- The prototype of a row object: `Object.prototype` (what `NanNew<Object>()` gives),
`null`, or a `Date` object. -/
inductive Proto where
  | objectPrototype
  | null
  | date (ms : Int)
  deriving DecidableEq, Repr

/-- A row in object form: its prototype and its own properties, listed in the order in
which V8 enumerates them (names that are array indices first, in ascending order, then
the other names in the order of their creation). -/
structure Tuple where
  proto : Proto
  props : List (String × Value)
  deriving DecidableEq, Repr

/-- The object right after `NanNew<Object>()`. -/
def Tuple.empty : Tuple :=
  { proto := Proto.objectPrototype, props := [] }

/-- The array index a property name stands for, if it is one: the canonical decimal
numeral of a number below `2 ^ 32 - 1`. -/
def arrayIndex? (k : String) : Option Nat :=
  if k.data ≠ [] ∧ k.data.all Char.isDigit = true
      ∧ (k.data.head? ≠ some '0' ∨ k.data.length = 1) then
    let n := k.data.foldl (fun n c => 10 * n + (c.toNat - 48)) 0
    if n < 4294967295 then some n else none
  else none

/-- Whether a new property named `k` is enumerated before the property named `k'`. -/
def enumeratesBefore (k k' : String) : Bool :=
  match arrayIndex? k, arrayIndex? k' with
  | some n, some m => decide (n < m)
  | some _, none => true
  | none, _ => false

/-- The own properties after a property named `k`, absent so far, is created. -/
def ownInsert : List (String × Value) → String → Value → List (String × Value)
  | [], k, v => [(k, v)]
  | (k', v') :: t, k, v =>
    if enumeratesBefore k k' then (k, v) :: (k', v') :: t
    else (k', v') :: ownInsert t k v

/-- The own properties after the existing property named `k` is overwritten. -/
def ownReplace : List (String × Value) → String → Value → List (String × Value)
  | [], _, _ => []
  | (k', v') :: t, k, v => if k' = k then (k, v) :: t else (k', v') :: ownReplace t k v

/-- The own properties after an ordinary assignment to the property named `k`. -/
def ownSet (props : List (String × Value)) (k : String) (v : Value) :
    List (String × Value) :=
  if k ∈ props.map Prod.fst then ownReplace props k v else ownInsert props k v

/-- The object after `tuple->Set(name, v)`, with the semantics of a JavaScript
assignment.  The name `__proto__` is an accessor inherited from `Object.prototype`: as
long as the prototype chain reaches `Object.prototype`, assigning an object (a `Date`)
or null to it changes the prototype, assigning any other value does nothing, and no own
property is created.  Every other assignment creates or overwrites an own property. -/
def Tuple.set (t : Tuple) (k : String) (v : Value) : Tuple :=
  if k = "__proto__" ∧ t.proto ≠ Proto.null then
    match v with
    | .null => { t with proto := Proto.null }
    | .date ms => { t with proto := Proto.date ms }
    | _ => t
  else { t with props := ownSet t.props k v }

/-- Lookup among own properties. -/
def ownGet : List (String × Value) → String → Option Value
  | [], _ => none
  | (k', v') :: t, k => if k' = k then some v' else ownGet t k

/-- Lookup of an own property of a row object. -/
def Tuple.get (t : Tuple) (k : String) : Option Value :=
  ownGet t.props k

/-! ## Error objects -/

/-- One entry of the `errors` array of an error object. -/
structure SubError where
  message : String
  state : String
  deriving DecidableEq, Repr

/-- The object built by `GetSQLError`.  A property that was never set is `none`;
`proto` is the message of the `Error` installed as prototype. -/
structure ErrorObject where
  error : Option String
  message : Option String
  state : Option String
  proto : Option String
  errors : JsArray SubError
  deriving DecidableEq, Repr

/-- The object right after `NanNew<Object>()`. -/
def ErrorObject.empty : ErrorObject :=
  { error := none, message := none, state := none, proto := none, errors := [] }

/-! ## Answers of the driver -/

/-- Answer to one `SQLGetDiagRec` call: the status and what the three output buffers
hold after the call (they are uninitialised before the first call and are read only
after a succeeded call). -/
structure DiagRec where
  ret : SQLRETURN
  state : String
  message : String
  native : Int
  deriving DecidableEq, Repr

/-- The diagnostics of a handle, as answered to one `GetSQLError` run: the answer to
`SQLGetDiagField` (status, and the record count if one was stored) and the answers to
the calls `SQLGetDiagRec(1)`, `SQLGetDiagRec(2)`, ... -/
structure Diag where
  fieldRet : SQLRETURN
  number : Option Int
  recs : List DiagRec
  deriving DecidableEq, Repr

/-- Answer to one `SQLGetData` call.  `len` is what was stored through the length
indicator pointer; the other fields are what was stored in the target buffer, one field
per C type the code asks for (`chars` is the text up to the terminator). -/
structure GetDataResp where
  ret : SQLRETURN
  len : Option Int := none
  slong : Option Int := none
  dbl : Option Double := none
  ts : Option SQL_TIMESTAMP_STRUCT := none
  chars : Option String := none
  deriving DecidableEq, Repr

/-- Answer to one `SQLColAttribute` call. -/
structure ColAttrResp where
  ret : SQLRETURN
  text : Option String := none
  strLen : Option Int := none
  numeric : Option Int := none
  deriving DecidableEq, Repr

/-- A block of the C++ heap owned by the column descriptors. -/
inductive Block where
  | columns
  | name (i : Nat)
  deriving DecidableEq, Repr

/-- A column descriptor. -/
structure Column where
  index : Nat
  name : String
  len : Int
  type : Int
  deriving DecidableEq, Repr

/-- The statement handle as the code sees it, and the process state the code changes.
`numResultCols` answers `SQLNumResultCols` (the count is stored only by a succeeded
call); `colAttr`, `fetch`, `getData` answer the successive calls of `SQLColAttribute`,
`SQLFetch`, `SQLGetData`; `diag` gives the diagnostics read by the successive
`GetSQLError` runs on the handle.  `thrown` lists the exceptions scheduled by
`NanThrowError`, `heap` the live column blocks and `freed` the blocks deleted so far. -/
structure World where
  numResultCols : SQLRETURN × Nat
  colAttr : List ColAttrResp
  fetch : List SQLRETURN
  getData : List GetDataResp
  diag : List Diag
  thrown : List ErrorObject
  heap : List Block
  freed : List Block
  deriving DecidableEq, Repr

/-- What a call of the code ends in: it returns, or the process is aborted by a failed
`assert`. -/
inductive Outcome (α : Type) where
  | ok (a : α)
  | abort
  deriving DecidableEq, Repr

/-! ## Environment -/

/-- The value buffer a parameter descriptor points to. -/
inductive ParamBuffer where
  | chars (s : String)
  | int64 (v : Int)
  | double (v : Double)
  | bool (b : Bool)
  deriving DecidableEq, Repr

/-- A parameter-binding descriptor (`Parameter` of `odbc.h`). -/
structure Parameter where
  ValueType : Int
  ParameterType : Int
  ColumnSize : Int
  DecimalDigits : Int
  ParameterValuePtr : Option ParamBuffer
  BufferLength : Int
  StrLen_or_IndPtr : Int
  deriving DecidableEq, Repr

/-- Contents of storage that the code reads without having written it: the local
`statusRecCount` of `GetSQLError`, the locals `value` (double) and `odbcTime` of
`GetColumnValue`, the local `buflen` and the `type` fields of `GetColumns`, the local
`hDBC` of `CreateConnectionSync`, the block returned by `malloc` in
`GetParametersFromArray`. -/
structure Uninit where
  statusRecCount : Int
  value : Double
  odbcTime : SQL_TIMESTAMP_STRUCT
  buflen : Int
  colType : Nat → Int
  hDBC : Nat
  params : Nat → Parameter

/-- Build flags, the byte order of the platform and C library functions.  `strptime` gives the broken-down time parsed
with the pattern of the code from a zeroed `struct tm`, or `none` when parsing fails. -/
structure Env where
  UNICODE : Bool
  WIN32 : Bool
  TIMEGM : Bool
  NDEBUG : Bool
  BIG_ENDIAN : Bool
  strptime : String → Option Tm
  mktime : Tm → Int
  timegm : Tm → Int
  timelocal : Tm → Int
  uninit : Uninit

/-! ## GetSQLError -/

/-- Answer of `SQLGetDiagRec` once the recorded answers are used up. -/
def DiagRec.noData : DiagRec :=
  { ret := SQL_NO_DATA, state := "", message := "", native := 0 }

/-- The loop `for (i = 0; i < statusRecCount; i++)` of `GetSQLError`: `n` iterations
remain, `recs` are the answers to the calls still to come. -/
def GetSQLError.loop (message : String) :
    Nat → Nat → List DiagRec → ErrorObject → ErrorObject
  | 0, _, _, objError => objError
  | n + 1, i, recs, objError =>
    let r := recs.headD DiagRec.noData
    let ret := r.ret
    let errorSQLState := r.state
    let errorMessage := r.message
    if SQL_SUCCEEDED ret then
      let objError :=
        if i = 0 then
          { objError with
            error := some message
            proto := some errorMessage
            message := some errorMessage
            state := some errorSQLState }
        else objError
      let subError : SubError := { message := errorMessage, state := errorSQLState }
      let objError := { objError with errors := JsArray.set objError.errors i subError }
      GetSQLError.loop message n (i + 1) recs.tail objError
    else if ret = SQL_NO_DATA then
      objError
    else
      GetSQLError.loop message n (i + 1) recs.tail objError

/-- The body of `ODBC::GetSQLError (handleType, handle, message)`, on the diagnostics
`d` of the handle. -/
def GetSQLError (env : Env) (d : Diag) (message : String) : ErrorObject :=
  let objError := ErrorObject.empty
  let statusRecCount : Int := d.number.getD env.uninit.statusRecCount
  let errors : JsArray SubError := []
  let objError := { objError with errors := errors }
  let objError := GetSQLError.loop message statusRecCount.toNat 0 d.recs objError
  if statusRecCount = 0 then
    { objError with
      error := some message
      proto := some message
      message := some "[node-odbc] An error occurred but no diagnostic information was available." }
  else objError

/-- The two-argument overload of `ODBC::GetSQLError`. -/
def GetSQLErrorDefault (env : Env) (d : Diag) : ErrorObject :=
  GetSQLError env d "[node-odbc] SQL_ERROR"

/-- The diagnostics of a handle on which nothing was recorded: no record. -/
def Diag.none : Diag :=
  { fieldRet := SQL_SUCCESS, number := some 0, recs := [] }

/-- A run of `GetSQLError` on the statement handle: it reads the next diagnostics. -/
def GetSQLErrorStmt (env : Env) (w : World) (message : String) : ErrorObject × World :=
  (GetSQLError env (w.diag.headD Diag.none) message, { w with diag := w.diag.tail })

/-! ## GetColumnValue -/

/-- The value of the cast `(int) x` of a `SQLLEN`: the low 32 bits of `x`, read as a
signed integer. -/
def toInt32 (x : Int) : Int :=
  (x + 2147483648) % 4294967296 - 2147483648

/-- The bytes of the UTF-8 encoding of a character. -/
def utf8Bytes (c : Char) : List Nat :=
  if c.toNat < 128 then [c.toNat]
  else if c.toNat < 2048 then [192 + c.toNat / 64, 128 + c.toNat % 64]
  else if c.toNat < 65536 then
    [224 + c.toNat / 4096, 128 + c.toNat / 64 % 64, 128 + c.toNat % 64]
  else
    [240 + c.toNat / 262144, 128 + c.toNat / 4096 % 64, 128 + c.toNat / 64 % 64,
      128 + c.toNat % 64]

/-- The bytes a narrow character target holds when the text `s` was stored in it: the
UTF-8 bytes of `s` and the terminator. -/
def narrowBytes (s : String) : List Nat :=
  (s.data.map utf8Bytes).flatten ++ [0]

/-- The value of `*buffer`, the first `uint16_t` of the scratch buffer, when the buffer
holds the narrow text `s`.  The code clears that unit before the call, so the byte after
the terminator of an empty text is 0. -/
def firstUnit (bigEndian : Bool) (s : String) : Nat :=
  let b0 := (narrowBytes s).getD 0 0
  let b1 := (narrowBytes s).getD 1 0
  if bigEndian then 256 * b0 + b1 else b0 + 256 * b1

/-- Answer of `SQLGetData` once the recorded answers are used up: no data, nothing
stored. -/
def GetDataResp.noData : GetDataResp := { ret := SQL_NO_DATA }

/-- One `SQLGetData` call on the statement handle. -/
def SQLGetData (w : World) : GetDataResp × World :=
  (w.getData.headD GetDataResp.noData, { w with getData := w.getData.tail })

/-- The value of `NanEscapeScope(str)`: the text held by the handle (an empty handle is
never escaped by the code; it is mapped to `undefined`). -/
def strValue : Option String → Value
  | some s => .string s
  | none => .undefined

/-- The `do ... while (true)` loop of the default branch of `GetColumnValue` followed
by `return NanEscapeScope(str)`.  The first argument lists the answers to the calls
still to come; `buffer`, `len`, `str`, `count` are the locals of the code (`str` is
`none` while the handle is empty). -/
def GetColumnValue.text (env : Env) :
    List GetDataResp → String → Int → Option String → Nat → World →
      Outcome (Value × World)
  | [], _, _, str, _, w =>
    -- the driver reports SQL_NO_DATA and stores nothing
    if str.isNone then .ok (.null, { w with getData := [] })
    else .ok (strValue str, { w with getData := [] })
  | r :: rest, buffer, len, str, count, w =>
    let w := { w with getData := rest }
    let ret := r.ret
    let buffer := r.chars.getD buffer
    let len := r.len.getD len
    if len = SQL_NULL_DATA ∧ str.isNone then
      .ok (.null, w)
    else if SQL_NO_DATA = ret then
      if str.isNone then .ok (.null, w)
      else .ok (strValue str, w)
    else if SQL_SUCCEEDED ret then
      let str :=
        if count = 0 then some buffer
        else some (str.getD "" ++ buffer)
      if len = 0 then .ok (strValue str, w)
      else GetColumnValue.text env rest buffer len str (count + 1) w
    else
      if ret = SQL_INVALID_HANDLE ∧ env.NDEBUG = false then .abort
      else
        let (objError, w) := GetSQLErrorStmt env w "[node-odbc] Error in ODBC::GetColumnValue"
        .ok (.undefined, { w with thrown := w.thrown ++ [objError] })

/-- The body of `ODBC::GetColumnValue (hStmt, column, buffer, bufferLength)`.  The
switch is on `(int) column.type`; the bit branch compares the `uint16_t` `*buffer` with
`'0'`. -/
def GetColumnValue (env : Env) (column : Column) (w : World) : Outcome (Value × World) :=
  let len : Int := 0
  let buffer : String := ""
  let type : Int := toInt32 column.type
  if type = SQL_INTEGER ∨ type = SQL_SMALLINT ∨ type = SQL_TINYINT then
    let value : Int := 0
    let (r, w) := SQLGetData w
    let value := r.slong.getD value
    let len := r.len.getD len
    if len = SQL_NULL_DATA then .ok (.null, w)
    else .ok (.integer value, w)
  else if type = SQL_NUMERIC ∨ type = SQL_DECIMAL ∨ type = SQL_BIGINT
      ∨ type = SQL_FLOAT ∨ type = SQL_REAL ∨ type = SQL_DOUBLE then
    let value : Double := env.uninit.value
    let (r, w) := SQLGetData w
    let value := r.dbl.getD value
    let len := r.len.getD len
    if len = SQL_NULL_DATA then .ok (.null, w)
    else .ok (.number value, w)
  else if type = SQL_DATETIME ∨ type = SQL_TIMESTAMP then
    if env.WIN32 then
      let (r, w) := SQLGetData w
      let buffer := r.chars.getD buffer
      let len := r.len.getD len
      if len = SQL_NULL_DATA then .ok (.null, w)
      else
        match env.strptime buffer with
        | some timeInfo =>
          let timeInfo := { timeInfo with tm_isdst := -1 }
          .ok (.date (env.mktime timeInfo * 1000), w)
        | none => .ok (.string buffer, w)
    else
      let odbcTime := env.uninit.odbcTime
      let (r, w) := SQLGetData w
      let odbcTime := r.ts.getD odbcTime
      let len := r.len.getD len
      if len = SQL_NULL_DATA then .ok (.null, w)
      else
        let timeInfo : Tm :=
          { tm_sec := odbcTime.second
            tm_min := odbcTime.minute
            tm_hour := odbcTime.hour
            tm_mday := odbcTime.day
            tm_mon := (odbcTime.month : Int) - 1
            tm_year := odbcTime.year - 1900
            tm_isdst := -1 }
        if env.TIMEGM then
          .ok (.date (env.timegm timeInfo * 1000 + (odbcTime.fraction / 1000000 : Nat)), w)
        else
          .ok (.date (env.timelocal timeInfo * 1000 + (odbcTime.fraction / 1000000 : Nat)), w)
  else if type = SQL_BIT then
    let (r, w) := SQLGetData w
    let buffer := r.chars.getD buffer
    let len := r.len.getD len
    if len = SQL_NULL_DATA then .ok (.null, w)
    else .ok (.boolean (if firstUnit env.BIG_ENDIAN buffer = ('0').toNat then false else true), w)
  else
    GetColumnValue.text env w.getData buffer len none 0 w

/-! ## GetRecordTuple, GetRecordArray

`columns` stands for the descriptor array together with its length `*colCount`. -/

/-- The loop of `ODBC::GetRecordTuple` over the columns still to visit. -/
def GetRecordTuple.loop (env : Env) : List Column → Tuple → World → Outcome (Tuple × World)
  | [], tuple, w => .ok (tuple, w)
  | column :: columns, tuple, w =>
    match GetColumnValue env column w with
    | .abort => .abort
    | .ok (value, w) => GetRecordTuple.loop env columns (Tuple.set tuple column.name value) w

/-- The body of `ODBC::GetRecordTuple`. -/
def GetRecordTuple (env : Env) (columns : List Column) (w : World) : Outcome (Tuple × World) :=
  let tuple : Tuple := Tuple.empty
  GetRecordTuple.loop env columns tuple w

/-- The loop of `ODBC::GetRecordArray` over the columns still to visit, `i` being the
index of the first of them. -/
def GetRecordArray.loop (env : Env) :
    List Column → Nat → JsArray Value → World → Outcome (JsArray Value × World)
  | [], _, array, w => .ok (array, w)
  | column :: columns, i, array, w =>
    match GetColumnValue env column w with
    | .abort => .abort
    | .ok (value, w) => GetRecordArray.loop env columns (i + 1) (JsArray.set array i value) w

/-- The body of `ODBC::GetRecordArray`. -/
def GetRecordArray (env : Env) (columns : List Column) (w : World) :
    Outcome (JsArray Value × World) :=
  let array : JsArray Value := []
  GetRecordArray.loop env columns 0 array w

/-! ## GetColumns, FreeColumns -/

/-- Answer of `SQLColAttribute` once the recorded answers are used up: an error, nothing
stored. -/
def ColAttrResp.failed : ColAttrResp := { ret := SQL_ERROR }

/-- One `SQLColAttribute` call on the statement handle. -/
def SQLColAttribute (w : World) : ColAttrResp × World :=
  (w.colAttr.headD ColAttrResp.failed, { w with colAttr := w.colAttr.tail })

/-- The operator `new` for a column block. -/
def World.alloc (b : Block) (w : World) : World :=
  { w with heap := w.heap ++ [b] }

/-- The operator `delete []` on a column block. -/
def World.delete (b : Block) (w : World) : World :=
  { w with heap := w.heap.erase b, freed := w.freed ++ [b] }

/-- The loop of `ODBC::GetColumns`: `n` columns remain, `i` is the loop index, `buflen`
the local written by the name query, `columns` the descriptors filled so far. -/
def GetColumns.loop (env : Env) : Nat → Nat → Int → List Column → World → List Column × World
  | 0, _, _, columns, w => (columns, w)
  | n + 1, i, buflen, columns, w =>
    let index := i + 1
    let w := w.alloc (Block.name i)
    let name := ""
    let (r, w) := SQLColAttribute w
    let name := r.text.getD name
    let buflen := r.strLen.getD buflen
    let len := buflen
    let (r, w) := SQLColAttribute w
    let type := r.numeric.getD (env.uninit.colType i)
    GetColumns.loop env n (i + 1) buflen
      (columns ++ [{ index := index, name := name, len := len, type := type }]) w

/-- The body of `ODBC::GetColumns (hStmt, colCount)`: the descriptor array and the value
left in `*colCount`. -/
def GetColumns (env : Env) (w : World) : List Column × Nat × World :=
  let colCount := 0
  let ret := w.numResultCols.1
  let colCount := if SQL_SUCCEEDED ret then w.numResultCols.2 else colCount
  if SQL_SUCCEEDED ret = false then
    ([], colCount, w.alloc Block.columns)
  else
    let w := w.alloc Block.columns
    let (columns, w) := GetColumns.loop env colCount 0 env.uninit.buflen [] w
    (columns, colCount, w)

/-- The loop of `ODBC::FreeColumns`: `n` name buffers remain, `i` is the loop index. -/
def FreeColumns.loop : Nat → Nat → World → World
  | 0, _, w => w
  | n + 1, i, w => FreeColumns.loop n (i + 1) (w.delete (Block.name i))

/-- The body of `ODBC::FreeColumns (columns, colCount)`: the value left in `*colCount`
and the new process state. -/
def FreeColumns (colCount : Nat) (w : World) : Nat × World :=
  let w := FreeColumns.loop colCount 0 w
  let w := w.delete Block.columns
  (0, w)

/-! ## GetAllRecordsSync -/

/-- What `ODBC::GetAllRecordsSync` leaves: `rows` is the returned array, `objError`,
`errorCount`, `colCount` are the locals when the function returns. -/
structure FetchAll where
  rows : JsArray Tuple
  objError : ErrorObject
  errorCount : Nat
  colCount : Nat
  world : World
  deriving DecidableEq, Repr

/-- The loop `while (true)` of `ODBC::GetAllRecordsSync` followed by
`return NanEscapeScope(rows)`.  The second argument lists the statuses of the `SQLFetch`
calls still to come. -/
def GetAllRecordsSync.loop (env : Env) (columns : List Column) :
    List SQLRETURN → JsArray Tuple → Nat → Nat → Nat → ErrorObject → World → Outcome FetchAll
  | [], rows, _, errorCount, colCount, objError, w =>
    -- the driver reports SQL_NO_DATA
    let w := { w with fetch := [] }
    let (colCount, w) := FreeColumns colCount w
    .ok { rows := rows, objError := objError, errorCount := errorCount,
          colCount := colCount, world := w }
  | ret :: rest, rows, count, errorCount, colCount, objError, w =>
    let w := { w with fetch := rest }
    if ret = SQL_ERROR then
      let errorCount := errorCount + 1
      let (objError, w) :=
        GetSQLErrorStmt env w "[node-odbc] Error in ODBC::GetAllRecordsSync"
      .ok { rows := rows, objError := objError, errorCount := errorCount,
            colCount := colCount, world := w }
    else if ret = SQL_NO_DATA then
      let (colCount, w) := FreeColumns colCount w
      .ok { rows := rows, objError := objError, errorCount := errorCount,
            colCount := colCount, world := w }
    else
      match GetRecordTuple env columns w with
      | .abort => .abort
      | .ok (tuple, w) =>
        GetAllRecordsSync.loop env columns rest (JsArray.set rows count tuple) (count + 1)
          errorCount colCount objError w

/-- The body of `ODBC::GetAllRecordsSync (hENV, hDBC, hSTMT, buffer, bufferLength)`. -/
def GetAllRecordsSync (env : Env) (w : World) : Outcome FetchAll :=
  let objError := ErrorObject.empty
  let count := 0
  let errorCount := 0
  let (columns, colCount, w) := GetColumns env w
  let rows : JsArray Tuple := []
  GetAllRecordsSync.loop env columns w.fetch rows count errorCount colCount objError w

/-! ## GetParametersFromArray -/

/-- A JavaScript value passed as a query parameter. -/
inductive JsValue where
  | undefined
  | null
  | boolean (b : Bool)
  | number (v : Double)
  | string (s : String)
  | object
  | array
  deriving DecidableEq, Repr

/-- V8 `Value::IsString`. -/
def JsValue.IsString : JsValue → Bool
  | .string _ => true
  | _ => false

/-- V8 `Value::IsNull`. -/
def JsValue.IsNull : JsValue → Bool
  | .null => true
  | _ => false

/-- V8 `Value::IsNumber`. -/
def JsValue.IsNumber : JsValue → Bool
  | .number _ => true
  | _ => false

/-- V8 `Value::IsBoolean`. -/
def JsValue.IsBoolean : JsValue → Bool
  | .boolean _ => true
  | _ => false

/-- V8 `Value::IsInt32`: a number with an integral value in the signed 32-bit range that
is not minus zero. -/
def JsValue.IsInt32 : JsValue → Bool
  | .number (.dyadic num exp) =>
    (Double.dyadic num exp).isIntegral
      && decide (-2147483648 ≤ (Double.dyadic num exp).toInt)
      && decide ((Double.dyadic num exp).toInt ≤ 2147483647)
  | _ => false

/-- V8 `String::Length`: the number of UTF-16 code units. -/
def utf16Length (s : String) : Nat :=
  (s.data.map (fun c => if c.val.toNat < 65536 then 1 else 2)).sum

/-- V8 `String::Utf8Length`: the number of bytes of the UTF-8 encoding. -/
def utf8Length (s : String) : Nat :=
  s.utf8ByteSize

/-- The body of the loop of `ODBC::GetParametersFromArray` for one `value`; `p` is the
element `params[i]` of the block returned by `malloc`. -/
def GetParametersFromArray.body (env : Env) (value : JsValue) (p : Parameter) : Parameter :=
  let p := { p with ColumnSize := 0 }
  let p := { p with StrLen_or_IndPtr := SQL_NULL_DATA }
  let p := { p with BufferLength := 0 }
  let p := { p with DecimalDigits := 0 }
  if value.IsString then
    match value with
    | .string string =>
      let length := utf16Length string
      let p := { p with ValueType := SQL_C_TCHAR env.UNICODE }
      let p := { p with ColumnSize := 0 }
      let p :=
        if env.UNICODE then
          { p with ParameterType := SQL_WVARCHAR
                   BufferLength := (length : Int) * sizeofUint16 + sizeofUint16 }
        else
          { p with ParameterType := SQL_VARCHAR
                   BufferLength := (utf8Length string : Int) + 1 }
      let p := { p with ParameterValuePtr := some (.chars string) }
      { p with StrLen_or_IndPtr := SQL_NTS }
    | _ => p
  else if value.IsNull then
    let p := { p with ValueType := SQL_C_DEFAULT }
    let p := { p with ParameterType := SQL_VARCHAR }
    { p with StrLen_or_IndPtr := SQL_NULL_DATA }
  else if value.IsInt32 then
    match value with
    | .number v =>
      let number := v.toInt
      let p := { p with ValueType := SQL_C_SBIGINT }
      let p := { p with ParameterType := SQL_BIGINT }
      let p := { p with ParameterValuePtr := some (.int64 number) }
      { p with StrLen_or_IndPtr := 0 }
    | _ => p
  else if value.IsNumber then
    match value with
    | .number number =>
      let p := { p with ValueType := SQL_C_DOUBLE }
      let p := { p with ParameterType := SQL_DECIMAL }
      let p := { p with ParameterValuePtr := some (.double number) }
      let p := { p with BufferLength := sizeofDouble }
      let p := { p with StrLen_or_IndPtr := p.BufferLength }
      let p := { p with DecimalDigits := 7 }
      { p with ColumnSize := sizeofDouble }
    | _ => p
  else if value.IsBoolean then
    match value with
    | .boolean b =>
      let p := { p with ValueType := SQL_C_BIT }
      let p := { p with ParameterType := SQL_BIT }
      let p := { p with ParameterValuePtr := some (.bool b) }
      { p with StrLen_or_IndPtr := 0 }
    | _ => p
  else p

/-- The loop of `ODBC::GetParametersFromArray` over the values still to encode, `i`
being the index of the first of them. -/
def GetParametersFromArray.loop (env : Env) : List JsValue → Nat → List Parameter
  | [], _ => []
  | value :: values, i =>
    GetParametersFromArray.body env value (env.uninit.params i)
      :: GetParametersFromArray.loop env values (i + 1)

/-- The body of `ODBC::GetParametersFromArray (values, paramCount)`: the descriptor
array (its length is the value left in `*paramCount`). -/
def GetParametersFromArray (env : Env) (values : List JsValue) : List Parameter :=
  GetParametersFromArray.loop env values 0

/-! ## CreateConnection, CreateConnectionSync -/

/-- Answer to `SQLAllocHandle (SQL_HANDLE_DBC, ...)`: the status and the handle stored,
if any. -/
structure AllocResp where
  ret : SQLRETURN
  handle : Option Nat := none
  deriving DecidableEq, Repr

/-- The connection wrapper built by the `ODBCConnection` constructor from its two
arguments. -/
structure Connection where
  hEnv : Nat
  hDBC : Nat
  deriving DecidableEq, Repr

/-- How a method called from JavaScript completes. -/
inductive Completion (α : Type) where
  | returned (v : α)
  | threw (e : ErrorObject)
  deriving DecidableEq, Repr

/-- The body of `ODBC::CreateConnectionSync` on the environment handle `m_hEnv`. -/
def CreateConnectionSync (env : Env) (m_hEnv : Nat) (alloc : AllocResp) :
    Completion Connection :=
  let hDBC := env.uninit.hDBC
  let ret := alloc.ret
  let hDBC := alloc.handle.getD hDBC
  if SQL_SUCCEEDED ret = false then
    -- TODO: do something!  (the branch is empty in the source)
    .returned { hEnv := m_hEnv, hDBC := hDBC }
  else
    .returned { hEnv := m_hEnv, hDBC := hDBC }

/-- The work data of an asynchronous connection request, zeroed by `calloc`. -/
structure create_connection_work_data where
  hEnv : Nat
  hDBC : Nat := 0
  result : SQLRETURN := 0
  deriving DecidableEq, Repr

/-- The body of `ODBC::UV_CreateConnection`. -/
def UV_CreateConnection (data : create_connection_work_data) (alloc : AllocResp) :
    create_connection_work_data :=
  { data with result := alloc.ret, hDBC := alloc.handle.getD data.hDBC }

/-- The arguments `ODBC::UV_AfterCreateConnection` passes to the callback: the error
object alone, or `null` and the wrapper. -/
def UV_AfterCreateConnection (env : Env) (envDiag : Diag)
    (data : create_connection_work_data) : ErrorObject ⊕ Connection :=
  if SQL_SUCCEEDED data.result = false then
    .inl (GetSQLErrorDefault env envDiag)
  else
    .inr { hEnv := data.hEnv, hDBC := data.hDBC }

/-! ## Concrete inputs used by the evaluations below -/

/-- A build without `UNICODE`, `_WIN32`, `TIMEGM` and `NDEBUG`; uninitialised storage
holds zeroes. -/
def demoEnv : Env :=
  { UNICODE := false
    WIN32 := false
    TIMEGM := false
    NDEBUG := false
    BIG_ENDIAN := false
    strptime := fun _ => none
    mktime := fun _ => 0
    timegm := fun _ => 0
    timelocal := fun _ => 0
    uninit :=
      { statusRecCount := 0
        value := .dyadic 0 0
        odbcTime :=
          { year := 0, month := 0, day := 0, hour := 0, minute := 0, second := 0, fraction := 0 }
        buflen := 0
        colType := fun _ => 0
        hDBC := 0
        params := fun _ =>
          { ValueType := 0, ParameterType := 0, ColumnSize := 0, DecimalDigits := 0,
            ParameterValuePtr := none, BufferLength := 0, StrLen_or_IndPtr := 0 } } }

/-- A `_WIN32` build whose `strptime` parses one text only. -/
def demoEnvWin32 : Env :=
  { demoEnv with
    WIN32 := true
    strptime := fun s =>
      if s = "2020-01-02 03:04:05" then
        some { tm_sec := 5, tm_min := 4, tm_hour := 3, tm_mday := 2, tm_mon := 0,
               tm_year := 120, tm_isdst := 0 }
      else none }

/-- The build of `demoEnv` where the uninitialised local `statusRecCount` of
`GetSQLError` happens to hold 3. -/
def demoEnvCount3 : Env :=
  { demoEnv with uninit := { demoEnv.uninit with statusRecCount := 3 } }

/-- A column descriptor of the given type code. -/
def demoColumn (type : Int) : Column :=
  { index := 1, name := "c", len := 1, type := type }

/-- A statement on which nothing has been recorded yet. -/
def World.blank : World :=
  { numResultCols := (SQL_SUCCESS, 0), colAttr := [], fetch := [], getData := [], diag := [],
    thrown := [], heap := [], freed := [] }

/-- A statement on which `SQLGetData` answers with `getData`. -/
def World.answers (getData : List GetDataResp) : World :=
  { World.blank with getData := getData }

/-- A statement with one integer column `id`, on which `SQLFetch` answers with the
statuses `fetch` and `SQLGetData` with `getData`. -/
def World.oneIntColumn (fetch : List SQLRETURN) (getData : List GetDataResp) : World :=
  { World.blank with
    numResultCols := (SQL_SUCCESS, 1)
    colAttr := [{ ret := SQL_SUCCESS, text := some "id", strLen := some 2 },
                { ret := SQL_SUCCESS, numeric := some SQL_INTEGER }]
    fetch := fetch
    getData := getData }

/-- The type codes, after the cast `(int) column.type`, that `GetColumnValue` sends to
its default (text) branch. -/
def isDefaultType (t : Int) : Bool :=
  !(t == SQL_INTEGER || t == SQL_SMALLINT || t == SQL_TINYINT
    || t == SQL_NUMERIC || t == SQL_DECIMAL || t == SQL_BIGINT
    || t == SQL_FLOAT || t == SQL_REAL || t == SQL_DOUBLE
    || t == SQL_DATETIME || t == SQL_TIMESTAMP || t == SQL_BIT)

/-- The text stored by an answer (empty when nothing was stored). -/
def GetDataResp.text (r : GetDataResp) : String :=
  r.chars.getD ""

/-- The values whose dynamic kind is none of text, null, number or boolean. -/
def unsupportedKind (value : JsValue) : Bool :=
  !(value.IsString || value.IsNull || value.IsNumber || value.IsBoolean)

/-- Whether a double lies in the signed 32-bit range and is not minus zero. -/
def Double.inInt32Range (v : Double) : Prop :=
  v ≠ Double.negZero ∧ -2147483648 ≤ v.toInt ∧ v.toInt ≤ 2147483647

instance (v : Double) : Decidable v.inInt32Range :=
  inferInstanceAs (Decidable (v ≠ Double.negZero ∧ -2147483648 ≤ v.toInt ∧ v.toInt ≤ 2147483647))

/-- The number of bytes of a text as the build encodes it (UTF-16 code units in a
`UNICODE` build, UTF-8 otherwise). -/
def encodedByteLength (unicode : Bool) (s : String) : Int :=
  if unicode then 2 * (utf16Length s : Int) else (utf8Length s : Int)

/-- The number of bytes of the terminator of an encoded text. -/
def terminatorLength (unicode : Bool) : Int :=
  if unicode then 2 else 1

/-- The variable-length character type of the build. -/
def variableLengthCharType (unicode : Bool) : Int :=
  if unicode then SQL_WVARCHAR else SQL_VARCHAR

/-- The encoding rules per kind of value: what the descriptor `p` of the value `value`
must hold.  A number follows the integer rule when it is integer-valued, in the signed
32-bit range and not minus zero, and the rule of the doubles otherwise.  A value of
another kind than text, null, number or boolean has no rule. -/
def encodes (unicode : Bool) (value : JsValue) (p : Parameter) : Prop :=
  match value with
  | .string s =>
    p.ValueType = SQL_C_TCHAR unicode ∧ p.ParameterType = variableLengthCharType unicode
      ∧ p.StrLen_or_IndPtr = SQL_NTS ∧ p.ColumnSize = 0
      ∧ p.BufferLength = encodedByteLength unicode s + terminatorLength unicode
  | .null =>
    p.ValueType = SQL_C_DEFAULT ∧ p.ParameterType = SQL_VARCHAR
      ∧ p.StrLen_or_IndPtr = SQL_NULL_DATA
  | .number v =>
    (v.isIntegral = true ∧ v.inInt32Range →
      p.ValueType = SQL_C_SBIGINT ∧ p.ParameterType = SQL_BIGINT ∧ p.StrLen_or_IndPtr = 0)
    ∧ (¬ (v.isIntegral = true ∧ v.inInt32Range) →
      p.ValueType = SQL_C_DOUBLE ∧ p.ParameterType = SQL_DECIMAL ∧ p.DecimalDigits = 7
        ∧ p.ColumnSize = sizeofDouble ∧ p.BufferLength = sizeofDouble)
  | .boolean _ =>
    p.ValueType = SQL_C_BIT ∧ p.ParameterType = SQL_BIT ∧ p.StrLen_or_IndPtr = 0
  | _ => False

/-- The double nearest to 3.14. -/
def double_3_14 : Double := .dyadic 7070651414971679 51

/-- The entry of the `errors` array made from a diagnostic record: its message and its
state. -/
def DiagRec.subError (r : DiagRec) : SubError :=
  { message := r.message, state := r.state }

/-- The text of the top-level message when the handle has no diagnostic record. -/
def noDiagnosticMessage : String :=
  "[node-odbc] An error occurred but no diagnostic information was available."

/-- The value a call returned, if it returned. -/
def Outcome.get? {α : Type} : Outcome α → Option α
  | .ok a => some a
  | .abort => none

/-- The outcome with a function applied to the value returned. -/
def Outcome.map {α β : Type} (f : α → β) : Outcome α → Outcome β
  | .ok a => .ok (f a)
  | .abort => .abort

/-- The values of a row as the specification words it: `GetColumnValue` is invoked once
per column, in ascending ordinal order, each call on the state left by the one before;
the run aborts as soon as one call aborts. -/
def extractColumns (env : Env) : List Column → World → Outcome (List Value × World)
  | [], w => .ok ([], w)
  | column :: columns, w =>
    match GetColumnValue env column w with
    | .abort => .abort
    | .ok (value, w) =>
      match extractColumns env columns w with
      | .abort => .abort
      | .ok (values, w) => .ok (value :: values, w)

/-- The object obtained by assigning the properties `entries` in order to an empty
object. -/
def rowObject (entries : List (String × Value)) : Tuple :=
  entries.foldl (fun t e => Tuple.set t e.1 e.2) Tuple.empty

/-- The value of the last entry named `k`, if any. -/
def lastValue (k : String) : List (String × Value) → Option Value
  | [] => none
  | (k', v) :: es =>
    match lastValue k es with
    | some v' => some v'
    | none => if k' = k then some v else none

/-- The names of the columns, in ordinal order. -/
def columnNames (columns : List Column) : List String :=
  columns.map Column.name

/-- The integer `2 ^ 40` as a double: integer-valued, outside the signed 32-bit range. -/
def double_2_pow_40 : Double := .dyadic 1099511627776 0

/-- The name buffers of the columns `0, ..., n - 1`, in index order. -/
def nameBlocks (n : Nat) : List Block :=
  (List.range n).map Block.name

/-- The number of statuses with `SQL_SUCCEEDED` in a list. -/
def countSucceeded (statuses : List SQLRETURN) : Nat :=
  (statuses.filter SQL_SUCCEEDED).length



/-! ## Lemmas on the loops -/

theorem SQL_SUCCEEDED_ne_noData {rc : SQLRETURN} (h : SQL_SUCCEEDED rc = true) :
    SQL_NO_DATA ≠ rc := by
  intro h'
  subst h'
  simp [SQL_SUCCEEDED, SQL_NO_DATA, SQL_SUCCESS, SQL_SUCCESS_WITH_INFO] at h

/-- One turn of the loop of the default branch on the answer `r`. -/
theorem text_cons (env : Env) (r : GetDataResp) (rest : List GetDataResp) (buffer : String)
    (len : Int) (str : Option String) (count : Nat) (w : World) :
    GetColumnValue.text env (r :: rest) buffer len str count w =
      if r.len.getD len = SQL_NULL_DATA ∧ str.isNone then
        .ok (.null, { w with getData := rest })
      else if SQL_NO_DATA = r.ret then
        if str.isNone then .ok (.null, { w with getData := rest })
        else .ok (strValue str, { w with getData := rest })
      else if SQL_SUCCEEDED r.ret then
        if r.len.getD len = 0 then
          .ok (strValue (if count = 0 then some (r.chars.getD buffer)
            else some (str.getD "" ++ r.chars.getD buffer)), { w with getData := rest })
        else
          GetColumnValue.text env rest (r.chars.getD buffer) (r.len.getD len)
            (if count = 0 then some (r.chars.getD buffer)
              else some (str.getD "" ++ r.chars.getD buffer)) (count + 1)
            { w with getData := rest }
      else if r.ret = SQL_INVALID_HANDLE ∧ env.NDEBUG = false then .abort
      else
        .ok (.undefined,
          { (GetSQLErrorStmt env { w with getData := rest }
                "[node-odbc] Error in ODBC::GetColumnValue").2 with
            thrown := w.thrown ++
              [(GetSQLErrorStmt env { w with getData := rest }
                "[node-odbc] Error in ODBC::GetColumnValue").1] }) := by
  rfl

/-- The process state does not depend on the answers recorded in the state passed to
the loop: the loop overwrites them. -/
theorem text_world (env : Env) (tape : List GetDataResp) (buffer : String) (len : Int)
    (str : Option String) (count : Nat) (w : World) (x : List GetDataResp) :
    GetColumnValue.text env tape buffer len str count { w with getData := x }
      = GetColumnValue.text env tape buffer len str count w := by
  cases tape with
  | nil => simp [GetColumnValue.text]
  | cons r rest => simp [text_cons, GetSQLErrorStmt]

/-- With no recorded answer left, the loop of the default branch behaves as on the
single answer "no data, nothing stored". -/
theorem text_nil (env : Env) (buffer : String) (len : Int) (str : Option String)
    (count : Nat) (w : World) :
    GetColumnValue.text env [] buffer len str count w
      = GetColumnValue.text env [GetDataResp.noData] buffer len str count w := by
  rw [text_cons]
  cases str with
  | none =>
    simp [GetColumnValue.text, GetDataResp.noData]
  | some s =>
    simp [GetColumnValue.text, GetDataResp.noData]

/-- With no recorded status left, the fetch loop behaves as on the single status
`SQL_NO_DATA`. -/
theorem fetch_nil (env : Env) (columns : List Column) (rows : JsArray Tuple)
    (count errorCount colCount : Nat) (objError : ErrorObject) (w : World) :
    GetAllRecordsSync.loop env columns [] rows count errorCount colCount objError w
      = GetAllRecordsSync.loop env columns [SQL_NO_DATA] rows count errorCount colCount
          objError w := by
  simp [GetAllRecordsSync.loop, SQL_NO_DATA, SQL_ERROR]

theorem GetColumnValue_default (env : Env) (column : Column) (w : World)
    (hty : isDefaultType (toInt32 column.type) = true) :
    GetColumnValue env column w = GetColumnValue.text env w.getData "" 0 none 0 w := by
  simp only [isDefaultType, Bool.not_eq_true', Bool.or_eq_false_iff, beq_eq_false_iff_ne,
    ne_eq] at hty
  obtain ⟨⟨⟨⟨⟨⟨⟨⟨⟨⟨⟨h1, h2⟩, h3⟩, h4⟩, h5⟩, h6⟩, h7⟩, h8⟩, h9⟩, h10⟩, h11⟩, h12⟩ := hty
  simp [GetColumnValue, h1, h2, h3, h4, h5, h6, h7, h8, h9, h10, h11, h12]

/-- C2: in every branch of `GetColumnValue` (integral, numeric, timestamp on either
platform, bit, default text branch), whatever the type code and whatever else the
driver answers, if the first `SQLGetData` call for the column stores `SQL_NULL_DATA` in
the length indicator, the value returned is null (and that call is the only one). -/
theorem GetColumnValue_null_sentinel (env : Env) (column : Column) (w : World)
    (r : GetDataResp) (rest : List GetDataResp)
    (hw : w.getData = r :: rest) (hlen : r.len = some SQL_NULL_DATA) :
    GetColumnValue env column w = .ok (Value.null, { w with getData := rest }) := by
  unfold GetColumnValue
  simp only [SQLGetData, hw, List.headD_cons, List.tail_cons, hlen, Option.getD_some]
  split_ifs <;> first | rfl | (rw [text_cons]; simp [hlen])

/-- C2 at a concrete input: a text column whose first call stores the null sentinel. -/
theorem GetColumnValue_null_sentinel_witness :
    GetColumnValue demoEnv { index := 1, name := "c", len := 1, type := SQL_VARCHAR }
        { World.blank with getData := [{ ret := SQL_SUCCESS, len := some SQL_NULL_DATA }] }
      = .ok (Value.null,
          { ({ World.blank with
                getData := [{ ret := SQL_SUCCESS, len := some SQL_NULL_DATA }] } : World) with
            getData := [] }) :=
  GetColumnValue_null_sentinel demoEnv _ _ _ [] rfl rfl

/-- C1 (evaluation at the failing input): on one integer column, with `SQLFetch`
answering `SQL_INVALID_HANDLE` and then `SQL_NO_DATA`, no fetch succeeded before the
driver reported completion, yet `GetAllRecordsSync` returns an array of one row. -/
theorem GetAllRecordsSync_row_on_invalid_handle :
    countSucceeded [SQL_INVALID_HANDLE] = 0
    ∧ ((GetAllRecordsSync demoEnv
          (World.oneIntColumn [SQL_INVALID_HANDLE, SQL_NO_DATA] [])).get?.map FetchAll.rows
        = some [some { proto := Proto.objectPrototype, props := [("id", Value.integer 0)] }]) := by
  decide

/-- C7 (evaluation at the failing input): on one integer column, with `SQLFetch`
answering `SQL_SUCCESS` and then `SQL_ERROR`, `GetAllRecordsSync` builds the error
object in its local `objError`, schedules no exception, and returns the array holding
the row accumulated before the error. -/
theorem GetAllRecordsSync_returns_rows_on_error :
    ((GetAllRecordsSync demoEnv
          (World.oneIntColumn [SQL_SUCCESS, SQL_ERROR]
            [{ ret := SQL_SUCCESS, len := some 4, slong := some 7 }])).get?.map FetchAll.rows
        = some [some { proto := Proto.objectPrototype, props := [("id", Value.integer 7)] }])
    ∧ ((GetAllRecordsSync demoEnv
          (World.oneIntColumn [SQL_SUCCESS, SQL_ERROR]
            [{ ret := SQL_SUCCESS, len := some 4, slong := some 7 }])).get?.map
          (fun r => r.world.thrown)
        = some [])
    ∧ ((GetAllRecordsSync demoEnv
          (World.oneIntColumn [SQL_SUCCESS, SQL_ERROR]
            [{ ret := SQL_SUCCESS, len := some 4, slong := some 7 }])).get?.map
          FetchAll.objError
        = some (GetSQLError demoEnv Diag.none
            "[node-odbc] Error in ODBC::GetAllRecordsSync")) := by
  decide

/-- C8 (evaluation at the failing input): when `SQLAllocHandle` answers `SQL_ERROR` and
stores no handle, `CreateConnectionSync` raises nothing and returns a wrapper built on
the uninitialised local `hDBC`, whereas the asynchronous path hands the error object
built from the environment handle's diagnostics to its callback. -/
theorem CreateConnectionSync_returns_wrapper_on_failure :
    CreateConnectionSync demoEnv 1 { ret := SQL_ERROR }
        = Completion.returned { hEnv := 1, hDBC := demoEnv.uninit.hDBC }
    ∧ UV_AfterCreateConnection demoEnv Diag.none
          (UV_CreateConnection { hEnv := 1 } { ret := SQL_ERROR })
        = Sum.inl (GetSQLErrorDefault demoEnv Diag.none) := by
  decide



/-! ## GetParametersFromArray -/

theorem IsInt32_isIntegral {v : Double} (h : (JsValue.number v).IsInt32 = true) :
    v.isIntegral = true := by
  cases v <;> simp_all [JsValue.IsInt32]

/-- V8 `IsInt32` holds of a number exactly when it is integer-valued, in the signed
32-bit range and not minus zero. -/
theorem IsInt32_iff_integral_inRange (v : Double) :
    (JsValue.number v).IsInt32 = true ↔ v.isIntegral = true ∧ v.inInt32Range := by
  cases v <;>
    simp [JsValue.IsInt32, Double.inInt32Range, Double.isIntegral, Double.toInt, and_assoc]

/-- The descriptor written by one turn of the loop obeys the encoding rules, whatever
the block returned by `malloc` held. -/
theorem body_encodes (env : Env) (value : JsValue) (p : Parameter)
    (hkind : unsupportedKind value = false) :
    encodes env.UNICODE value (GetParametersFromArray.body env value p) := by
  cases value with
  | string s =>
    cases hu : env.UNICODE <;>
      simp [encodes, GetParametersFromArray.body, JsValue.IsString, hu, SQL_C_TCHAR,
        variableLengthCharType, encodedByteLength, terminatorLength, sizeofUint16, mul_comm]
  | null =>
    simp [encodes, GetParametersFromArray.body, JsValue.IsString, JsValue.IsNull]
  | number v =>
    constructor
    · intro h
      have h' := (IsInt32_iff_integral_inRange v).mpr h
      simp [GetParametersFromArray.body, JsValue.IsString, JsValue.IsNull, h']
    · intro h
      have h' : (JsValue.number v).IsInt32 = false := by
        cases hi : (JsValue.number v).IsInt32
        · rfl
        · exact absurd ((IsInt32_iff_integral_inRange v).mp hi) h
      simp [GetParametersFromArray.body, JsValue.IsString, JsValue.IsNull, h',
        JsValue.IsNumber]
  | boolean b =>
    simp [encodes, GetParametersFromArray.body, JsValue.IsString, JsValue.IsNull,
      JsValue.IsInt32, JsValue.IsNumber, JsValue.IsBoolean]
  | undefined => simp [unsupportedKind, JsValue.IsString, JsValue.IsNull, JsValue.IsNumber,
      JsValue.IsBoolean] at hkind
  | object => simp [unsupportedKind, JsValue.IsString, JsValue.IsNull, JsValue.IsNumber,
      JsValue.IsBoolean] at hkind
  | array => simp [unsupportedKind, JsValue.IsString, JsValue.IsNull, JsValue.IsNumber,
      JsValue.IsBoolean] at hkind

theorem loop_length (env : Env) (values : List JsValue) (i : Nat) :
    (GetParametersFromArray.loop env values i).length = values.length := by
  induction values generalizing i with
  | nil => rfl
  | cons v values ih => simp [GetParametersFromArray.loop, ih]

theorem loop_encodes (env : Env) (values : List JsValue) (i : Nat)
    (hkind : ∀ v ∈ values, unsupportedKind v = false) :
    List.Forall₂ (encodes env.UNICODE) values (GetParametersFromArray.loop env values i) := by
  induction values generalizing i with
  | nil => exact List.Forall₂.nil
  | cons v values ih =>
    exact List.Forall₂.cons (body_encodes env v _ (hkind v (List.mem_cons_self _ _)))
      (ih (i + 1) (fun v' hv' => hkind v' (List.mem_cons_of_mem _ hv')))

/-- C4 (as stated, refuted): minus zero is an integer in the signed 32-bit range (its
value is 0), yet its descriptor is not the one of an integer: it is encoded as a double
(`SQL_C_DOUBLE` / `SQL_DECIMAL`). -/
theorem GetParametersFromArray_minus_zero_is_double :
    Double.negZero.isIntegral = true ∧ Double.negZero.toInt = 0
    ∧ (GetParametersFromArray demoEnv [.number Double.negZero]).map
        (fun p => (p.ValueType, p.ParameterType)) = [(SQL_C_DOUBLE, SQL_DECIMAL)]
    ∧ SQL_C_DOUBLE ≠ SQL_C_SBIGINT := by
  decide

/-- C4 (amended): for every sequence of values that are each a text, null, a number or
a boolean, `GetParametersFromArray` yields exactly one descriptor per value, in the same
order, and the descriptor at each position holds what the encoding rules fix for the
value at that position alone: text gives `SQL_C_TCHAR`, the variable-length character
type, indicator `SQL_NTS`, column size 0 and a buffer length of the encoded byte length
plus the terminator; null gives `SQL_C_DEFAULT`, `SQL_VARCHAR`, indicator
`SQL_NULL_DATA`; an integer in the signed 32-bit range other than minus zero gives
`SQL_C_SBIGINT`, `SQL_BIGINT`, indicator 0; every other number (a non-integer number,
minus zero) gives `SQL_C_DOUBLE`, `SQL_DECIMAL`, 7 decimal digits, column size and
buffer length the size of a double; a boolean gives `SQL_C_BIT`, `SQL_BIT`, indicator 0.
In particular the values `"abc", null, 42, 3.14, true` give five descriptors with these
type pairs in order, the buffer of `"abc"` being 4 bytes long (8 in a `UNICODE`
build). -/
theorem GetParametersFromArray_encodes (env : Env) (values : List JsValue)
    (hkind : ∀ v ∈ values, unsupportedKind v = false) :
    (GetParametersFromArray env values).length = values.length
    ∧ List.Forall₂ (encodes env.UNICODE) values (GetParametersFromArray env values)
    ∧ (GetParametersFromArray env
          [.string "abc", .null, .number (.dyadic 42 0), .number double_3_14,
            .boolean true]).map (fun p => (p.ValueType, p.ParameterType))
        = [(SQL_C_TCHAR env.UNICODE, variableLengthCharType env.UNICODE),
            (SQL_C_DEFAULT, SQL_VARCHAR), (SQL_C_SBIGINT, SQL_BIGINT),
            (SQL_C_DOUBLE, SQL_DECIMAL), (SQL_C_BIT, SQL_BIT)]
    ∧ (GetParametersFromArray env [.string "abc"]).map Parameter.BufferLength
        = [if env.UNICODE then 8 else 4] := by
  refine ⟨loop_length env values 0, loop_encodes env values 0 hkind, ?_, ?_⟩
  · have h42 : (JsValue.number (.dyadic 42 0)).IsInt32 = true := by decide
    have h314 : (JsValue.number double_3_14).IsInt32 = false := by decide
    have hb : (JsValue.boolean true).IsInt32 = false := rfl
    cases hu : env.UNICODE <;>
      simp [GetParametersFromArray, GetParametersFromArray.loop, GetParametersFromArray.body,
        JsValue.IsString, JsValue.IsNull, JsValue.IsNumber, JsValue.IsBoolean, h42, h314, hb,
        hu, variableLengthCharType, -JsValue.number.injEq]
  · have h8 : utf8Length "abc" = 3 := by decide
    have h16 : utf16Length "abc" = 3 := by decide
    cases hu : env.UNICODE <;>
      simp [GetParametersFromArray, GetParametersFromArray.loop, GetParametersFromArray.body,
        JsValue.IsString, hu, h8, h16, sizeofUint16]

/-- C4 (amended) at a concrete input: the five values of the example with minus zero and
a text outside ASCII added; the buffer lengths of the two texts are evaluated. -/
theorem GetParametersFromArray_encodes_witness :
    (GetParametersFromArray demoEnv
        [.string "abc", .null, .number (.dyadic 42 0), .number Double.negZero,
          .number double_3_14, .boolean true, .string "é😀"]).length
      = ([.string "abc", .null, .number (.dyadic 42 0), .number Double.negZero,
          .number double_3_14, .boolean true, .string "é😀"] : List JsValue).length
    ∧ List.Forall₂ (encodes demoEnv.UNICODE)
        [.string "abc", .null, .number (.dyadic 42 0), .number Double.negZero,
          .number double_3_14, .boolean true, .string "é😀"]
        (GetParametersFromArray demoEnv
          [.string "abc", .null, .number (.dyadic 42 0), .number Double.negZero,
            .number double_3_14, .boolean true, .string "é😀"])
    ∧ (GetParametersFromArray demoEnv [.string "abc", .string "é😀"]).map
        Parameter.BufferLength = [4, 7]
    ∧ (GetParametersFromArray { demoEnv with UNICODE := true }
        [.string "abc", .string "é😀"]).map Parameter.BufferLength = [8, 8] :=
  ⟨(GetParametersFromArray_encodes demoEnv _ (by decide)).1,
   (GetParametersFromArray_encodes demoEnv _ (by decide)).2.1,
   by decide, by decide⟩

/-! ## GetSQLError -/

theorem JsArray.set_length_eq {α : Type} (a : JsArray α) (v : α) :
    JsArray.set a a.length v = a ++ [some v] := by
  simp [JsArray.set]

/-- Past the first record, a run of succeeded records appends one entry per record and
leaves the top-level properties alone. -/
theorem loop_succeeded (message : String) (good : List DiagRec)
    (hgood : ∀ r ∈ good, SQL_SUCCEEDED r.ret = true) (tail : List DiagRec) (n j : Nat)
    (hn : good.length ≤ n) (objError : ErrorObject) (hlen : objError.errors.length = j + 1) :
    GetSQLError.loop message n (j + 1) (good ++ tail) objError
      = GetSQLError.loop message (n - good.length) (j + 1 + good.length) tail
          { objError with errors := objError.errors ++ good.map (fun r => some r.subError) } := by
  induction good generalizing n j objError with
  | nil => simp
  | cons r good ih =>
    have hr := hgood r (List.mem_cons_self _ _)
    obtain ⟨m, rfl⟩ : ∃ m, n = m + 1 := ⟨n - 1, by simp at hn; omega⟩
    have hm : good.length ≤ m := by simp at hn; omega
    rw [List.cons_append, GetSQLError.loop]
    simp only [List.headD_cons, hr, if_true, Nat.add_eq_zero, one_ne_zero, and_false, if_false,
      List.tail_cons]
    rw [← hlen, JsArray.set_length_eq, hlen,
      ih (fun r' hr' => hgood r' (List.mem_cons_of_mem _ hr')) m (j + 1) hm _
        (by simp [hlen])]
    have e1 : m + 1 - (r :: good).length = m - good.length := by simp
    have e2 : j + 1 + (r :: good).length = j + 1 + 1 + good.length := by simp; omega
    rw [e1, e2]
    simp [DiagRec.subError]

/-- From the first record on, a non-empty run of succeeded records sets the top-level
properties from the first of them and puts one entry per record in `errors`. -/
theorem loop_succeeded_first (message : String) (r : DiagRec) (good : List DiagRec)
    (hgood : ∀ r' ∈ r :: good, SQL_SUCCEEDED r'.ret = true) (tail : List DiagRec) (n : Nat)
    (hn : (r :: good).length ≤ n) :
    GetSQLError.loop message n 0 (r :: good ++ tail) ErrorObject.empty
      = GetSQLError.loop message (n - (r :: good).length) (r :: good).length tail
          { error := some message, message := some r.message, state := some r.state,
            proto := some r.message,
            errors := (r :: good).map (fun r => some r.subError) } := by
  have hr := hgood r (List.mem_cons_self _ _)
  obtain ⟨m, rfl⟩ : ∃ m, n = m + 1 := ⟨n - 1, by simp at hn; omega⟩
  have hm : good.length ≤ m := by simp at hn; omega
  rw [List.cons_append, GetSQLError.loop]
  simp only [List.headD_cons, hr, if_true, List.tail_cons]
  rw [loop_succeeded message good (fun r' hr' => hgood r' (List.mem_cons_of_mem _ hr')) tail m 0
    hm _ (by simp [ErrorObject.empty, JsArray.set])]
  simp [ErrorObject.empty, JsArray.set, DiagRec.subError, Nat.add_comm 1]

theorem loop_noData (message : String) (n i : Nat) (tail : List DiagRec)
    (hnd : (tail.headD DiagRec.noData).ret = SQL_NO_DATA) (objError : ErrorObject) :
    GetSQLError.loop message n i tail objError = objError := by
  cases n with
  | zero => rfl
  | succ n =>
    have hs : SQL_SUCCEEDED SQL_NO_DATA = false := rfl
    rw [GetSQLError.loop]
    simp only [hs, hnd, if_true, Bool.false_eq_true, if_false]

/-- C5: let the handle declare `n >= 1` diagnostic records and let the calls
`SQLGetDiagRec(1)`, ..., `SQLGetDiagRec(good.length)` succeed with the records `good`.
If these are all `n` records, the error object has the message and state of the first
record as top-level message and state, the argument `message` as context (`error`),
and an `errors` array of exactly `n` entries, entry `i` holding the message and state
of record `i + 1`.  If instead there are fewer than `n` of them and the next call
reports `SQL_NO_DATA`, iteration stops there and the `errors` array has exactly the
entries of the records retrieved before it. -/
theorem GetSQLError_records (env : Env) (d : Diag) (message : String) (n : Nat)
    (hn : 1 ≤ n) (hnum : d.number = some (n : Int))
    (good tail : List DiagRec) (hgood : ∀ r ∈ good, SQL_SUCCEEDED r.ret = true)
    (hrecs : d.recs = good ++ tail) :
    (good.length = n →
      (GetSQLError env d message).message = good.head?.map DiagRec.message
      ∧ (GetSQLError env d message).state = good.head?.map DiagRec.state
      ∧ (GetSQLError env d message).error = some message
      ∧ (GetSQLError env d message).errors = good.map (fun r => some r.subError)
      ∧ (GetSQLError env d message).errors.length = n)
    ∧ (good.length < n → (tail.headD DiagRec.noData).ret = SQL_NO_DATA →
      (GetSQLError env d message).errors = good.map (fun r => some r.subError)
      ∧ (GetSQLError env d message).errors.length = good.length) := by
  have hn0 : (n : Int) ≠ 0 := by omega
  have hobj : GetSQLError env d message
      = GetSQLError.loop message n 0 (good ++ tail) ErrorObject.empty := by
    simp [GetSQLError, hnum, hn0, hrecs, ErrorObject.empty]
  rw [hobj]
  constructor
  · intro hlen
    cases good with
    | nil => simp at hlen; omega
    | cons r good =>
      rw [loop_succeeded_first message r good hgood tail n (by omega), hlen, Nat.sub_self,
        GetSQLError.loop]
      simp [← hlen]
  · intro hlen hnd
    cases good with
    | nil =>
      rw [List.nil_append, loop_noData message n 0 tail hnd]
      simp [ErrorObject.empty]
    | cons r good =>
      rw [loop_succeeded_first message r good hgood tail n (by omega),
        loop_noData message _ _ tail hnd]
      simp

/-- C5 at concrete inputs: three declared records that are all retrieved; three
declared records of which the second call reports `SQL_NO_DATA`. -/
theorem GetSQLError_records_witness :
    ((GetSQLError demoEnv
          { fieldRet := SQL_SUCCESS, number := some ((3 : Nat) : Int),
            recs := [{ ret := SQL_SUCCESS, state := "42000", message := "a", native := 1 },
                     { ret := SQL_SUCCESS_WITH_INFO, state := "01000", message := "b", native := 2 },
                     { ret := SQL_SUCCESS, state := "HY000", message := "c", native := 3 }] ++ [] }
          "ctx").message = some "a"
      ∧ (GetSQLError demoEnv
          { fieldRet := SQL_SUCCESS, number := some ((3 : Nat) : Int),
            recs := [{ ret := SQL_SUCCESS, state := "42000", message := "a", native := 1 },
                     { ret := SQL_SUCCESS_WITH_INFO, state := "01000", message := "b", native := 2 },
                     { ret := SQL_SUCCESS, state := "HY000", message := "c", native := 3 }] ++ [] }
          "ctx").errors.length = 3)
    ∧ (GetSQLError demoEnv
          { fieldRet := SQL_SUCCESS, number := some ((3 : Nat) : Int),
            recs := [{ ret := SQL_SUCCESS, state := "42000", message := "a", native := 1 }]
                    ++ [{ ret := SQL_NO_DATA, state := "", message := "", native := 0 },
                        { ret := SQL_SUCCESS, state := "HY000", message := "c", native := 3 }] }
          "ctx").errors.length = 1 :=
  ⟨⟨((GetSQLError_records demoEnv _ "ctx" 3 (by decide) rfl
        [{ ret := SQL_SUCCESS, state := "42000", message := "a", native := 1 },
         { ret := SQL_SUCCESS_WITH_INFO, state := "01000", message := "b", native := 2 },
         { ret := SQL_SUCCESS, state := "HY000", message := "c", native := 3 }] []
        (by decide) rfl).1 rfl).1,
    ((GetSQLError_records demoEnv _ "ctx" 3 (by decide) rfl
        [{ ret := SQL_SUCCESS, state := "42000", message := "a", native := 1 },
         { ret := SQL_SUCCESS_WITH_INFO, state := "01000", message := "b", native := 2 },
         { ret := SQL_SUCCESS, state := "HY000", message := "c", native := 3 }] []
        (by decide) rfl).1 rfl).2.2.2.2⟩,
   ((GetSQLError_records demoEnv _ "ctx" 3 (by decide) rfl
        [{ ret := SQL_SUCCESS, state := "42000", message := "a", native := 1 }]
        [{ ret := SQL_NO_DATA, state := "", message := "", native := 0 },
         { ret := SQL_SUCCESS, state := "HY000", message := "c", native := 3 }]
        (by decide) rfl).2 (by decide) rfl).2⟩

/-- C6 (as stated, refuted): on a handle that declares zero diagnostic records the
`errors` array of the error object does not have exactly one entry: it is empty. -/
theorem GetSQLError_zero_records_not_one :
    ¬ ((GetSQLError demoEnv { fieldRet := SQL_SUCCESS, number := some 0, recs := [] }
          "ctx").errors.length = 1) := by
  decide

/-- C6 (amended): on every handle that declares zero diagnostic records, the `errors`
array of the error object is empty; the object itself stands for the missing record: its
top-level message is the text saying that no diagnostic information was available, its
context (`error`) is the argument `message`, and it has no state (and, like every error
object, no native code: the model of the object has no such property because the code
never stores one). -/
theorem GetSQLError_zero_records (env : Env) (d : Diag) (message : String)
    (hnum : d.number = some 0) :
    (GetSQLError env d message).errors = []
    ∧ (GetSQLError env d message).message = some noDiagnosticMessage
    ∧ (GetSQLError env d message).error = some message
    ∧ (GetSQLError env d message).state = none := by
  simp [GetSQLError, hnum, GetSQLError.loop, ErrorObject.empty, noDiagnosticMessage]

/-- C6 (amended) at a concrete input: a handle declaring zero records. -/
theorem GetSQLError_zero_records_witness :
    (GetSQLError demoEnv { fieldRet := SQL_SUCCESS, number := some 0, recs := [] } "ctx").errors
        = []
    ∧ (GetSQLError demoEnv { fieldRet := SQL_SUCCESS, number := some 0, recs := [] }
          "ctx").message = some noDiagnosticMessage
    ∧ (GetSQLError demoEnv { fieldRet := SQL_SUCCESS, number := some 0, recs := [] }
          "ctx").error = some "ctx"
    ∧ (GetSQLError demoEnv { fieldRet := SQL_SUCCESS, number := some 0, recs := [] }
          "ctx").state = none :=
  GetSQLError_zero_records demoEnv _ "ctx" rfl



/-! ## GetRecordTuple, GetRecordArray -/

theorem extractColumns_length (env : Env) (columns : List Column) (w : World)
    (vs : List Value) (w' : World) (h : extractColumns env columns w = .ok (vs, w')) :
    vs.length = columns.length := by
  induction columns generalizing w vs w' with
  | nil =>
    simp only [extractColumns, Outcome.ok.injEq, Prod.mk.injEq] at h
    simp [← h.1]
  | cons c cs ih =>
    rw [extractColumns] at h
    cases h1 : GetColumnValue env c w with
    | abort => simp [h1] at h
    | ok r1 =>
      obtain ⟨v, w1⟩ := r1
      simp only [h1] at h
      cases h2 : extractColumns env cs w1 with
      | abort => simp [h2] at h
      | ok r2 =>
        obtain ⟨vs2, w2⟩ := r2
        simp only [h2, Outcome.ok.injEq, Prod.mk.injEq] at h
        simp [← h.1, ih w1 vs2 w2 h2]

theorem GetRecordArray_loop_eq (env : Env) (columns : List Column) (array : JsArray Value)
    (w : World) :
    GetRecordArray.loop env columns array.length array w
      = (extractColumns env columns w).map (fun r => (array ++ r.1.map some, r.2)) := by
  induction columns generalizing array w with
  | nil => simp [GetRecordArray.loop, extractColumns, Outcome.map]
  | cons c cs ih =>
    rw [GetRecordArray.loop, extractColumns]
    cases h1 : GetColumnValue env c w with
    | abort => simp [Outcome.map]
    | ok r1 =>
      obtain ⟨v, w1⟩ := r1
      simp only
      have hl : (JsArray.set array array.length v).length = array.length + 1 := by
        simp [JsArray.set_length_eq]
      rw [← hl, ih, JsArray.set_length_eq]
      cases h2 : extractColumns env cs w1 with
      | abort => simp [Outcome.map]
      | ok r2 => simp [Outcome.map]

theorem GetRecordTuple_loop_eq (env : Env) (columns : List Column) (tuple : Tuple)
    (w : World) :
    GetRecordTuple.loop env columns tuple w
      = (extractColumns env columns w).map (fun r =>
          (((columnNames columns).zip r.1).foldl (fun t e => Tuple.set t e.1 e.2) tuple, r.2)) := by
  induction columns generalizing tuple w with
  | nil => simp [GetRecordTuple.loop, extractColumns, Outcome.map, columnNames]
  | cons c cs ih =>
    rw [GetRecordTuple.loop, extractColumns]
    cases h1 : GetColumnValue env c w with
    | abort => simp [Outcome.map]
    | ok r1 =>
      obtain ⟨v, w1⟩ := r1
      simp only
      rw [ih]
      cases h2 : extractColumns env cs w1 with
      | abort => simp [Outcome.map]
      | ok r2 => simp [Outcome.map, columnNames]

theorem ownReplace_keys (props : List (String × Value)) (k : String) (v : Value) :
    (ownReplace props k v).map Prod.fst = props.map Prod.fst := by
  induction props with
  | nil => rfl
  | cons e t ih =>
    obtain ⟨k0, v0⟩ := e
    by_cases h0 : k0 = k
    · simp [ownReplace, h0]
    · simp [ownReplace, h0, ih]

theorem ownInsert_keys (props : List (String × Value)) (k : String) (v : Value) :
    List.Perm ((ownInsert props k v).map Prod.fst) (k :: props.map Prod.fst) := by
  induction props with
  | nil => simp [ownInsert]
  | cons e t ih =>
    obtain ⟨k0, v0⟩ := e
    by_cases hb : enumeratesBefore k k0 = true
    · simp [ownInsert, hb]
    · simp only [ownInsert, hb, Bool.false_eq_true, if_false, List.map_cons]
      exact (List.Perm.cons k0 ih).trans (List.Perm.swap k k0 _)

theorem ownGet_ownReplace (props : List (String × Value)) (k k' : String) (v : Value)
    (hk : k ∈ props.map Prod.fst) :
    ownGet (ownReplace props k v) k' = if k = k' then some v else ownGet props k' := by
  induction props with
  | nil => simp at hk
  | cons e t ih =>
    obtain ⟨k0, v0⟩ := e
    by_cases h0 : k0 = k
    · subst h0
      simp only [ownReplace, ownGet, if_true]
      split_ifs <;> rfl
    · have hk' : k ∈ t.map Prod.fst := by
        simp only [List.map_cons, List.mem_cons] at hk
        rcases hk with h | h
        · exact absurd h.symm h0
        · exact h
      by_cases h1 : k0 = k'
      · subst h1
        simp [ownReplace, ownGet, h0, Ne.symm h0]
      · simp [ownReplace, ownGet, h0, h1, ih hk']

theorem ownGet_ownInsert (props : List (String × Value)) (k k' : String) (v : Value)
    (hk : k ∉ props.map Prod.fst) :
    ownGet (ownInsert props k v) k' = if k = k' then some v else ownGet props k' := by
  induction props with
  | nil => simp [ownInsert, ownGet]
  | cons e t ih =>
    obtain ⟨k0, v0⟩ := e
    simp only [List.map_cons, List.mem_cons, not_or] at hk
    by_cases hb : enumeratesBefore k k0 = true
    · simp [ownInsert, hb, ownGet]
    · simp only [ownInsert, hb, Bool.false_eq_true, if_false, ownGet, ih hk.2]
      by_cases h1 : k0 = k'
      · subst h1
        simp [hk.1]
      · simp [h1]

theorem ownGet_ownSet (props : List (String × Value)) (k k' : String) (v : Value) :
    ownGet (ownSet props k v) k' = if k = k' then some v else ownGet props k' := by
  by_cases hk : k ∈ props.map Prod.fst
  · rw [ownSet, if_pos hk]
    exact ownGet_ownReplace props k k' v hk
  · rw [ownSet, if_neg hk]
    exact ownGet_ownInsert props k k' v hk

theorem ownSet_keys (props : List (String × Value)) (k : String) (v : Value)
    (hnd : (props.map Prod.fst).Nodup) :
    ((ownSet props k v).map Prod.fst).Nodup
    ∧ ∀ k', k' ∈ (ownSet props k v).map Prod.fst ↔ k' = k ∨ k' ∈ props.map Prod.fst := by
  unfold ownSet
  split_ifs with hk
  · rw [ownReplace_keys]
    refine ⟨hnd, fun k' => ⟨Or.inr, ?_⟩⟩
    rintro (h | h)
    · exact h ▸ hk
    · exact h
  · have hp := ownInsert_keys props k v
    refine ⟨hp.nodup_iff.mpr (List.nodup_cons.mpr ⟨hk, hnd⟩), fun k' => ?_⟩
    rw [hp.mem_iff, List.mem_cons]

/-- The lookup of a name other than `__proto__` after an assignment. -/
theorem Tuple.get_set (t : Tuple) (k k' : String) (v : Value) (hk' : k' ≠ "__proto__") :
    Tuple.get (Tuple.set t k v) k' = if k = k' then some v else Tuple.get t k' := by
  unfold Tuple.set
  split_ifs with h1 h2
  · have hne : k ≠ k' := fun h => hk' (h ▸ h1.1)
    exact absurd h2 hne
  · cases v <;> rfl
  · simp [Tuple.get, ownGet_ownSet, *]
  · simp [Tuple.get, ownGet_ownSet, *]

/-- An assignment to a name other than `__proto__` is an ordinary assignment. -/
theorem Tuple.set_ordinary (t : Tuple) (k : String) (v : Value) (hk : k ≠ "__proto__") :
    Tuple.set t k v = { t with props := ownSet t.props k v } := by
  simp [Tuple.set, hk]

theorem foldl_set_get (entries : List (String × Value)) (t : Tuple) (k : String)
    (hk : k ≠ "__proto__") :
    Tuple.get (entries.foldl (fun t e => Tuple.set t e.1 e.2) t) k
      = (lastValue k entries).orElse (fun _ => Tuple.get t k) := by
  induction entries generalizing t with
  | nil => simp [lastValue]
  | cons e es ih =>
    obtain ⟨k0, v0⟩ := e
    rw [List.foldl_cons, ih, lastValue]
    cases hl : lastValue k es with
    | some v' => simp
    | none => simp [Tuple.get_set _ _ _ _ hk]; split_ifs <;> simp

theorem foldl_set_keys (entries : List (String × Value)) (t : Tuple)
    (hp : "__proto__" ∉ entries.map Prod.fst) (ht : (t.props.map Prod.fst).Nodup) :
    (entries.foldl (fun t e => Tuple.set t e.1 e.2) t).proto = t.proto
    ∧ ((entries.foldl (fun t e => Tuple.set t e.1 e.2) t).props.map Prod.fst).Nodup
    ∧ ∀ k, k ∈ (entries.foldl (fun t e => Tuple.set t e.1 e.2) t).props.map Prod.fst
        ↔ k ∈ t.props.map Prod.fst ∨ k ∈ entries.map Prod.fst := by
  induction entries generalizing t with
  | nil => simp [ht]
  | cons e es ih =>
    obtain ⟨k0, v0⟩ := e
    simp only [List.map_cons, List.mem_cons, not_or] at hp
    have hk0 : k0 ≠ "__proto__" := fun h => hp.1 h.symm
    obtain ⟨hnd, hmem⟩ := ownSet_keys t.props k0 v0 ht
    obtain ⟨h1, h2, h3⟩ := ih { t with props := ownSet t.props k0 v0 } hp.2 hnd
    rw [List.foldl_cons, Tuple.set_ordinary t k0 v0 hk0]
    refine ⟨h1, h2, fun k => ?_⟩
    rw [h3 k, hmem k]
    simp only [List.map_cons, List.mem_cons]
    tauto

theorem rowObject_props_length (entries : List (String × Value))
    (hp : "__proto__" ∉ entries.map Prod.fst) :
    (rowObject entries).proto = Proto.objectPrototype
    ∧ (rowObject entries).props.length = (entries.map Prod.fst).toFinset.card := by
  obtain ⟨h0, h1, h2⟩ := foldl_set_keys entries Tuple.empty hp (by simp [Tuple.empty])
  refine ⟨h0, ?_⟩
  have hcard := List.toFinset_card_of_nodup h1
  rw [List.length_map] at hcard
  rw [rowObject, ← hcard]
  congr 1
  ext k
  rw [List.mem_toFinset, List.mem_toFinset, h2 k]
  simp [Tuple.empty]

theorem lastValue_of_mem (entries : List (String × Value))
    (hnd : (entries.map Prod.fst).Nodup) (e : String × Value) (he : e ∈ entries) :
    lastValue e.1 entries = some e.2 := by
  induction entries with
  | nil => simp at he
  | cons e0 es ih =>
    obtain ⟨k0, v0⟩ := e0
    simp only [List.map_cons, List.nodup_cons] at hnd
    rw [lastValue]
    rcases List.mem_cons.mp he with h | h
    · subst h
      have hnone : lastValue k0 es = none := by
        have : ∀ (l : List (String × Value)), k0 ∉ l.map Prod.fst → lastValue k0 l = none := by
          intro l
          induction l with
          | nil => intro _; rfl
          | cons e1 l ih1 =>
            obtain ⟨k1, v1⟩ := e1
            intro hk
            simp only [List.map_cons, List.mem_cons, not_or] at hk
            simp [lastValue, ih1 hk.2, Ne.symm hk.1]
        exact this es hnd.1
      simp [hnone]
    · simp [ih hnd.2 h]

/-- C9 (as stated, refuted): two columns that bear the same name give a row object
with one entry, not two; and two columns named `__proto__` and `a`, whose names differ,
give a row object with one entry as well, because the assignment to `__proto__` creates
no property. -/
theorem GetRecordTuple_repeated_name :
    ¬ (((GetRecordTuple demoEnv
            [{ index := 1, name := "a", len := 1, type := SQL_INTEGER },
             { index := 2, name := "a", len := 1, type := SQL_INTEGER }]
            { World.blank with
              getData := [{ ret := SQL_SUCCESS, len := some 4, slong := some 1 },
                          { ret := SQL_SUCCESS, len := some 4, slong := some 2 }] }).get?.map
          (fun r => r.1.props.length)) = some 2)
    ∧ ¬ (((GetRecordTuple demoEnv
            [{ index := 1, name := "__proto__", len := 1, type := SQL_INTEGER },
             { index := 2, name := "a", len := 1, type := SQL_INTEGER }]
            { World.blank with
              getData := [{ ret := SQL_SUCCESS, len := some 4, slong := some 1 },
                          { ret := SQL_SUCCESS, len := some 4, slong := some 2 }] }).get?.map
          (fun r => r.1.props.length)) = some 2) := by
  decide

/-- C9 (amended): for every array of N column descriptors, both row builders invoke
`GetColumnValue` exactly once per column in ascending ordinal order (they abort exactly
when that sequence of calls aborts).  The array form has length N and holds at
position `i` the value of column `i + 1`.  The object form is the object obtained by
assigning, in column order, each column's value to the property named after the column:
every name other than `__proto__` is mapped to the value of the last column bearing it;
when no column is named `__proto__`, the object keeps its prototype and has exactly one
entry per distinct column name, so that when the names are moreover pairwise distinct
it has N entries and maps each column's name to that column's value. -/
theorem GetRecord_rows (env : Env) (columns : List Column) (w : World) :
    GetRecordArray env columns w
      = (extractColumns env columns w).map (fun r => (r.1.map some, r.2))
    ∧ GetRecordTuple env columns w
      = (extractColumns env columns w).map
          (fun r => (rowObject ((columnNames columns).zip r.1), r.2))
    ∧ ∀ (vs : List Value) (w' : World), extractColumns env columns w = .ok (vs, w') →
        (vs.map some).length = columns.length
        ∧ (∀ k, k ≠ "__proto__" →
            Tuple.get (rowObject ((columnNames columns).zip vs)) k
              = lastValue k ((columnNames columns).zip vs))
        ∧ ("__proto__" ∉ columnNames columns →
            (rowObject ((columnNames columns).zip vs)).proto = Proto.objectPrototype
            ∧ (rowObject ((columnNames columns).zip vs)).props.length
                = (columnNames columns).toFinset.card
            ∧ ((columnNames columns).Nodup →
                (rowObject ((columnNames columns).zip vs)).props.length = columns.length
                ∧ ∀ e ∈ (columnNames columns).zip vs,
                    Tuple.get (rowObject ((columnNames columns).zip vs)) e.1 = some e.2)) := by
  refine ⟨?_, ?_, ?_⟩
  · have := GetRecordArray_loop_eq env columns [] w
    simpa [GetRecordArray] using this
  · have := GetRecordTuple_loop_eq env columns Tuple.empty w
    simpa [GetRecordTuple, rowObject] using this
  · intro vs w' h
    have hlen := extractColumns_length env columns w vs w' h
    have hkeys : ((columnNames columns).zip vs).map Prod.fst = columnNames columns := by
      rw [← List.unzip_fst, List.unzip_zip]
      simp [columnNames, hlen]
    have hget : ∀ k, k ≠ "__proto__" →
        Tuple.get (rowObject ((columnNames columns).zip vs)) k
          = lastValue k ((columnNames columns).zip vs) := by
      intro k hk
      rw [rowObject, foldl_set_get _ _ _ hk]
      cases lastValue k ((columnNames columns).zip vs) <;> simp [Tuple.get, Tuple.empty, ownGet]
    refine ⟨by simp [hlen], hget, fun hp => ?_⟩
    obtain ⟨h0, h1⟩ := rowObject_props_length ((columnNames columns).zip vs) (by rw [hkeys]; exact hp)
    rw [hkeys] at h1
    refine ⟨h0, h1, fun hnd => ⟨?_, fun e he => ?_⟩⟩
    · rw [h1, List.toFinset_card_of_nodup hnd]
      simp [columnNames]
    · have hne : e.1 ≠ "__proto__" := by
        intro heq
        apply hp
        rw [← hkeys, ← heq]
        exact List.mem_map_of_mem Prod.fst he
      rw [hget e.1 hne]
      exact lastValue_of_mem _ (by rw [hkeys]; exact hnd) e he

/-- C9 (amended) at a concrete input: an integer column `a` and a text column `b`. -/
theorem GetRecord_rows_witness :
    ((([Value.integer 1, Value.string "x"] : List Value).map some).length
        = ([{ index := 1, name := "a", len := 1, type := SQL_INTEGER },
            { index := 2, name := "b", len := 1, type := SQL_VARCHAR }] : List Column).length)
    ∧ Tuple.get (rowObject ((columnNames
          [{ index := 1, name := "a", len := 1, type := SQL_INTEGER },
           { index := 2, name := "b", len := 1, type := SQL_VARCHAR }]).zip
          [Value.integer 1, Value.string "x"])) "b"
        = lastValue "b" ((columnNames
          [{ index := 1, name := "a", len := 1, type := SQL_INTEGER },
           { index := 2, name := "b", len := 1, type := SQL_VARCHAR }]).zip
          [Value.integer 1, Value.string "x"])
    ∧ (rowObject ((columnNames
          [{ index := 1, name := "a", len := 1, type := SQL_INTEGER },
           { index := 2, name := "b", len := 1, type := SQL_VARCHAR }]).zip
          [Value.integer 1, Value.string "x"])).props.length
        = ([{ index := 1, name := "a", len := 1, type := SQL_INTEGER },
            { index := 2, name := "b", len := 1, type := SQL_VARCHAR }] : List Column).length :=
  ⟨((GetRecord_rows demoEnv
        [{ index := 1, name := "a", len := 1, type := SQL_INTEGER },
         { index := 2, name := "b", len := 1, type := SQL_VARCHAR }]
        { World.blank with
          getData := [{ ret := SQL_SUCCESS, len := some 4, slong := some 1 },
                      { ret := SQL_SUCCESS, len := some 0, chars := some "x" }] }).2.2
      [Value.integer 1, Value.string "x"] World.blank (by decide)).1,
   ((GetRecord_rows demoEnv
        [{ index := 1, name := "a", len := 1, type := SQL_INTEGER },
         { index := 2, name := "b", len := 1, type := SQL_VARCHAR }]
        { World.blank with
          getData := [{ ret := SQL_SUCCESS, len := some 4, slong := some 1 },
                      { ret := SQL_SUCCESS, len := some 0, chars := some "x" }] }).2.2
      [Value.integer 1, Value.string "x"] World.blank (by decide)).2.1 "b" (by decide),
   ((((GetRecord_rows demoEnv
        [{ index := 1, name := "a", len := 1, type := SQL_INTEGER },
         { index := 2, name := "b", len := 1, type := SQL_VARCHAR }]
        { World.blank with
          getData := [{ ret := SQL_SUCCESS, len := some 4, slong := some 1 },
                      { ret := SQL_SUCCESS, len := some 0, chars := some "x" }] }).2.2
      [Value.integer 1, Value.string "x"] World.blank (by decide)).2.2 (by decide)).2.2
      (by decide)).1⟩

/-! ## The type dispatch of GetColumnValue -/

/-- Once a text has been accumulated, the loop of the default branch returns a text
when the calls succeed until one of them reports `SQL_NO_DATA`. -/
theorem text_gives_string (env : Env) (mid : List GetDataResp)
    (hmid : ∀ r ∈ mid, SQL_SUCCEEDED r.ret = true)
    (nd : GetDataResp) (hnd : nd.ret = SQL_NO_DATA) (tail : List GetDataResp)
    (buffer : String) (len : Int) (acc : String) (k : Nat) (w : World) :
    ∃ s w', GetColumnValue.text env (mid ++ nd :: tail) buffer len (some acc) (k + 1) w
      = .ok (Value.string s, w') := by
  induction mid generalizing buffer len acc k w with
  | nil =>
    exact ⟨acc, { w with getData := tail }, by simp [text_cons, hnd, strValue]⟩
  | cons r mid ih =>
    rw [List.cons_append, text_cons]
    have hs := hmid r (List.mem_cons_self _ _)
    have hne := SQL_SUCCEEDED_ne_noData hs
    by_cases hl : r.len.getD len = 0
    · exact ⟨acc ++ r.chars.getD buffer, { w with getData := mid ++ nd :: tail },
        by simp [hs, hne, hl, strValue]⟩
    · obtain ⟨s, w', hsw⟩ := ih (fun r' hr' => hmid r' (List.mem_cons_of_mem _ hr'))
        (r.chars.getD buffer) (r.len.getD len) (acc ++ r.chars.getD buffer) (k + 1)
        { w with getData := mid ++ nd :: tail }
      exact ⟨s, w', by simp [hs, hne, hl, hsw]⟩

theorem toNat_eq_zeroChar (c : Char) : c.toNat = 48 ↔ c = '0' := by
  constructor
  · intro h
    apply Char.ext
    apply UInt32.toNat.inj
    simpa [Char.toNat] using h
  · intro h
    subst h
    rfl

/-- On a little-endian platform the first `uint16_t` of a buffer that holds a text of
one character is `'0'` exactly when that character is `'0'`. -/
theorem firstUnit_singleton (c : Char) :
    firstUnit false (String.singleton c) = ('0').toNat ↔ c = '0' := by
  have h48 : ('0').toNat = 48 := rfl
  rw [h48, ← toNat_eq_zeroChar]
  simp only [firstUnit, narrowBytes, String.singleton, String.push, List.nil_append,
    List.map_cons, List.map_nil, List.flatten_cons, List.flatten_nil, List.append_nil, utf8Bytes,
    Bool.false_eq_true, if_false]
  split_ifs <;> simp <;> omega

/-- C10 (as stated, refuted): the same text column, with a length indicator that is
not the null sentinel in both runs, gives null when the first `SQLGetData` call reports
`SQL_NO_DATA` and a text when it succeeds: for a type code of the default branch the
variant is not fixed by the type code, and it is not always text.  And a bit column
whose fetched text is `00` gives true although the fetched character is `'0'`. -/
theorem GetColumnValue_default_not_always_text :
    isDefaultType (toInt32 SQL_VARCHAR) = true ∧ (0 : Int) ≠ SQL_NULL_DATA
    ∧ (GetColumnValue demoEnv { index := 1, name := "c", len := 1, type := SQL_VARCHAR }
          { World.blank with getData := [{ ret := SQL_NO_DATA, len := some 0 }] }).get?.map
        Prod.fst = some Value.null
    ∧ (GetColumnValue demoEnv { index := 1, name := "c", len := 1, type := SQL_VARCHAR }
          { World.blank with
            getData := [{ ret := SQL_SUCCESS, len := some 0, chars := some "x" }] }).get?.map
        Prod.fst = some (Value.string "x")
    ∧ (GetColumnValue demoEnv (demoColumn SQL_BIT)
          (World.answers [{ ret := SQL_SUCCESS, len := some 2, chars := some "00" }])).get?.map
        Prod.fst = some (Value.boolean true) := by
  decide

/-- C10 (amended): let the length indicator left by the first `SQLGetData` call of a
column not be the null sentinel, and let the type code be `(int) column.type`.  For
`SQL_INTEGER`, `SQL_SMALLINT`, `SQL_TINYINT` the value is the fetched signed 32-bit
integer; for `SQL_NUMERIC`, `SQL_DECIMAL`, `SQL_BIGINT`, `SQL_FLOAT`, `SQL_REAL`,
`SQL_DOUBLE` it is the fetched double; for `SQL_DATETIME`, `SQL_TIMESTAMP` it is a
timestamp on a build without `_WIN32` and, on a `_WIN32` build, a timestamp when the
fetched text parses and the raw text otherwise; for `SQL_BIT` it is a boolean, false
exactly when the first `uint16_t` of the buffer equals `'0'`: on a little-endian
platform, when the fetched text is one character, false exactly when that character is
`'0'`.  For every other type code the variant depends on the answers of the driver: the
value is null when the first call reports `SQL_NO_DATA`, and a text when the first call
succeeds and the later calls succeed until one reports `SQL_NO_DATA`. -/
theorem GetColumnValue_variant (env : Env) (column : Column) (w : World)
    (r : GetDataResp) (rest : List GetDataResp) (hw : w.getData = r :: rest)
    (hlen : r.len.getD 0 ≠ SQL_NULL_DATA) :
    ((toInt32 column.type = SQL_INTEGER ∨ toInt32 column.type = SQL_SMALLINT
          ∨ toInt32 column.type = SQL_TINYINT) →
      GetColumnValue env column w
        = .ok (Value.integer (r.slong.getD 0), { w with getData := rest }))
    ∧ ((toInt32 column.type = SQL_NUMERIC ∨ toInt32 column.type = SQL_DECIMAL
          ∨ toInt32 column.type = SQL_BIGINT ∨ toInt32 column.type = SQL_FLOAT
          ∨ toInt32 column.type = SQL_REAL ∨ toInt32 column.type = SQL_DOUBLE) →
      GetColumnValue env column w
        = .ok (Value.number (r.dbl.getD env.uninit.value), { w with getData := rest }))
    ∧ ((toInt32 column.type = SQL_DATETIME ∨ toInt32 column.type = SQL_TIMESTAMP) →
      (env.WIN32 = false →
        ∃ ms, GetColumnValue env column w = .ok (Value.date ms, { w with getData := rest }))
      ∧ (env.WIN32 = true →
        ((env.strptime (r.chars.getD "")).isSome = true →
          ∃ ms, GetColumnValue env column w = .ok (Value.date ms, { w with getData := rest }))
        ∧ (env.strptime (r.chars.getD "") = none →
          GetColumnValue env column w
            = .ok (Value.string (r.chars.getD ""), { w with getData := rest }))))
    ∧ (toInt32 column.type = SQL_BIT →
      GetColumnValue env column w
        = .ok (Value.boolean
              (if firstUnit env.BIG_ENDIAN (r.chars.getD "") = ('0').toNat then false else true),
            { w with getData := rest })
      ∧ (env.BIG_ENDIAN = false → ∀ c : Char, r.chars = some (String.singleton c) →
          GetColumnValue env column w
            = .ok (Value.boolean (if c = '0' then false else true),
                { w with getData := rest })))
    ∧ (isDefaultType (toInt32 column.type) = true →
      (r.ret = SQL_NO_DATA →
        GetColumnValue env column w = .ok (Value.null, { w with getData := rest }))
      ∧ (SQL_SUCCEEDED r.ret = true →
          ∀ (mid : List GetDataResp) (nd : GetDataResp) (tail : List GetDataResp),
            rest = mid ++ nd :: tail → (∀ r' ∈ mid, SQL_SUCCEEDED r'.ret = true) →
            nd.ret = SQL_NO_DATA →
        ∃ s w', GetColumnValue env column w = .ok (Value.string s, w'))) := by
  have hbit : toInt32 column.type = SQL_BIT →
      GetColumnValue env column w
        = .ok (Value.boolean
              (if firstUnit env.BIG_ENDIAN (r.chars.getD "") = ('0').toNat then false else true),
            { w with getData := rest }) := by
    intro h
    simp [GetColumnValue, h, SQLGetData, hw, hlen, SQL_INTEGER, SQL_SMALLINT,
      SQL_TINYINT, SQL_NUMERIC, SQL_DECIMAL, SQL_BIGINT, SQL_FLOAT, SQL_REAL, SQL_DOUBLE,
      SQL_DATETIME, SQL_TIMESTAMP, SQL_BIT]
  refine ⟨?_, ?_, ?_, ?_, ?_⟩
  · intro h
    rcases h with h | h | h <;>
      simp [GetColumnValue, h, SQLGetData, hw, hlen, SQL_INTEGER, SQL_SMALLINT, SQL_TINYINT]
  · intro h
    rcases h with h | h | h | h | h | h <;>
      simp [GetColumnValue, h, SQLGetData, hw, hlen, SQL_INTEGER, SQL_SMALLINT, SQL_TINYINT,
        SQL_NUMERIC, SQL_DECIMAL, SQL_BIGINT, SQL_FLOAT, SQL_REAL, SQL_DOUBLE]
  · intro h
    refine ⟨fun hwin => ?_, fun hwin => ⟨fun hp => ?_, fun hp => ?_⟩⟩
    · cases htg : env.TIMEGM <;>
        rcases h with h | h <;>
          simp [GetColumnValue, h, SQLGetData, hw, hlen, hwin, htg, SQL_INTEGER, SQL_SMALLINT,
            SQL_TINYINT, SQL_NUMERIC, SQL_DECIMAL, SQL_BIGINT, SQL_FLOAT, SQL_REAL, SQL_DOUBLE,
            SQL_DATETIME, SQL_TIMESTAMP]
    · obtain ⟨tm, htm⟩ := Option.isSome_iff_exists.mp hp
      rcases h with h | h <;>
        simp [GetColumnValue, h, SQLGetData, hw, hlen, hwin, htm, SQL_INTEGER, SQL_SMALLINT,
          SQL_TINYINT, SQL_NUMERIC, SQL_DECIMAL, SQL_BIGINT, SQL_FLOAT, SQL_REAL, SQL_DOUBLE,
          SQL_DATETIME, SQL_TIMESTAMP]
    · rcases h with h | h <;>
        simp [GetColumnValue, h, SQLGetData, hw, hlen, hwin, hp, SQL_INTEGER, SQL_SMALLINT,
          SQL_TINYINT, SQL_NUMERIC, SQL_DECIMAL, SQL_BIGINT, SQL_FLOAT, SQL_REAL, SQL_DOUBLE,
          SQL_DATETIME, SQL_TIMESTAMP]
  · intro h
    refine ⟨hbit h, fun hle c hc => ?_⟩
    rw [hbit h, hle, hc, Option.getD_some]
    by_cases hc0 : c = '0'
    · rw [if_pos ((firstUnit_singleton c).mpr hc0), if_pos hc0]
    · rw [if_neg (fun hh => hc0 ((firstUnit_singleton c).mp hh)), if_neg hc0]
  · intro hty
    rw [GetColumnValue_default env column w hty, hw, text_cons]
    refine ⟨fun hnd => ?_, fun hs mid nd tail hrest hmid hnd => ?_⟩
    · simp [hnd, hlen]
    · have hne := SQL_SUCCEEDED_ne_noData hs
      by_cases hl : r.len.getD 0 = 0
      · rw [hl] at hlen
        exact ⟨r.chars.getD "", { w with getData := rest },
          by simp [hs, hne, hl, hlen, strValue]⟩
      · obtain ⟨s, w', hsw⟩ := text_gives_string env mid hmid nd hnd tail (r.chars.getD "")
          (r.len.getD 0) (r.chars.getD "") 0 { w with getData := rest }
        rw [← hrest] at hsw
        exact ⟨s, w', by simpa [hs, hne, hl, hlen] using hsw⟩

/-- C10 (amended) at concrete inputs, one per case of the dispatch. -/
theorem GetColumnValue_variant_witness :
    (GetColumnValue demoEnv (demoColumn SQL_SMALLINT)
        (World.answers [{ ret := SQL_SUCCESS, len := some 4, slong := some 7 }])
      = .ok (Value.integer 7, World.answers []))
    ∧ (GetColumnValue demoEnv (demoColumn (4294967296 + SQL_INTEGER))
        (World.answers [{ ret := SQL_SUCCESS, len := some 4, slong := some 7 }])
      = .ok (Value.integer 7, World.answers []))
    ∧ (GetColumnValue demoEnv (demoColumn SQL_DECIMAL)
        (World.answers [{ ret := SQL_SUCCESS, len := some 8, dbl := some double_3_14 }])
      = .ok (Value.number double_3_14, World.answers []))
    ∧ (∃ ms, GetColumnValue demoEnv (demoColumn SQL_TIMESTAMP)
        (World.answers [{ ret := SQL_SUCCESS, len := some 16 }])
      = .ok (Value.date ms, World.answers []))
    ∧ (∃ ms, GetColumnValue demoEnvWin32 (demoColumn SQL_DATETIME)
        (World.answers [{ ret := SQL_SUCCESS, len := some 19,
                          chars := some "2020-01-02 03:04:05" }])
      = .ok (Value.date ms, World.answers []))
    ∧ (GetColumnValue demoEnvWin32 (demoColumn SQL_DATETIME)
        (World.answers [{ ret := SQL_SUCCESS, len := some 5, chars := some "never" }])
      = .ok (Value.string "never", World.answers []))
    ∧ (GetColumnValue demoEnv (demoColumn SQL_BIT)
        (World.answers [{ ret := SQL_SUCCESS, len := some 1,
                          chars := some (String.singleton '0') }])
      = .ok (Value.boolean false, World.answers []))
    ∧ (GetColumnValue demoEnv (demoColumn SQL_BIT)
        (World.answers [{ ret := SQL_SUCCESS, len := some 1,
                          chars := some (String.singleton '1') }])
      = .ok (Value.boolean true, World.answers []))
    ∧ (GetColumnValue demoEnv (demoColumn SQL_VARCHAR)
        (World.answers [{ ret := SQL_NO_DATA, len := some 0 }])
      = .ok (Value.null, World.answers []))
    ∧ (∃ s w', GetColumnValue demoEnv (demoColumn SQL_VARCHAR)
        (World.answers [{ ret := SQL_SUCCESS, len := some 3, chars := some "abc" },
                        { ret := SQL_NO_DATA }])
      = .ok (Value.string s, w')) :=
  ⟨(GetColumnValue_variant demoEnv (demoColumn SQL_SMALLINT)
      (World.answers [{ ret := SQL_SUCCESS, len := some 4, slong := some 7 }])
      _ [] rfl (by decide)).1 (Or.inr (Or.inl (by decide))),
   (GetColumnValue_variant demoEnv (demoColumn (4294967296 + SQL_INTEGER))
      (World.answers [{ ret := SQL_SUCCESS, len := some 4, slong := some 7 }])
      _ [] rfl (by decide)).1 (Or.inl (by decide)),
   (GetColumnValue_variant demoEnv (demoColumn SQL_DECIMAL)
      (World.answers [{ ret := SQL_SUCCESS, len := some 8, dbl := some double_3_14 }])
      _ [] rfl (by decide)).2.1 (Or.inr (Or.inl (by decide))),
   ((GetColumnValue_variant demoEnv (demoColumn SQL_TIMESTAMP)
      (World.answers [{ ret := SQL_SUCCESS, len := some 16 }])
      _ [] rfl (by decide)).2.2.1 (Or.inr (by decide))).1 rfl,
   (((GetColumnValue_variant demoEnvWin32 (demoColumn SQL_DATETIME)
      (World.answers [{ ret := SQL_SUCCESS, len := some 19,
                        chars := some "2020-01-02 03:04:05" }])
      _ [] rfl (by decide)).2.2.1 (Or.inl (by decide))).2 rfl).1 (by decide),
   (((GetColumnValue_variant demoEnvWin32 (demoColumn SQL_DATETIME)
      (World.answers [{ ret := SQL_SUCCESS, len := some 5, chars := some "never" }])
      _ [] rfl (by decide)).2.2.1 (Or.inl (by decide))).2 rfl).2 (by decide),
   ((GetColumnValue_variant demoEnv (demoColumn SQL_BIT)
      (World.answers [{ ret := SQL_SUCCESS, len := some 1,
                        chars := some (String.singleton '0') }])
      _ [] rfl (by decide)).2.2.2.1 (by decide)).2 rfl '0' rfl,
   ((GetColumnValue_variant demoEnv (demoColumn SQL_BIT)
      (World.answers [{ ret := SQL_SUCCESS, len := some 1,
                        chars := some (String.singleton '1') }])
      _ [] rfl (by decide)).2.2.2.1 (by decide)).2 rfl '1' rfl,
   ((GetColumnValue_variant demoEnv (demoColumn SQL_VARCHAR)
      (World.answers [{ ret := SQL_NO_DATA, len := some 0 }])
      _ [] rfl (by decide)).2.2.2.2 (by decide)).1 rfl,
   ((GetColumnValue_variant demoEnv (demoColumn SQL_VARCHAR)
      (World.answers [{ ret := SQL_SUCCESS, len := some 3, chars := some "abc" },
                      { ret := SQL_NO_DATA }])
      _ [{ ret := SQL_NO_DATA }] rfl (by decide)).2.2.2.2 (by decide)).2 (by decide)
        [] { ret := SQL_NO_DATA } [] rfl (by decide) rfl⟩

/-! ## GetParametersFromArray: integers and values without an encoding rule -/

/-- The descriptor at position `j` is the one the loop body writes for the value at
position `j`, on the element `j` of the block returned by `malloc`. -/
theorem loop_getElem (env : Env) (values : List JsValue) (i j : Nat) :
    (GetParametersFromArray.loop env values i)[j]?
      = (values[j]?).map
          (fun v => GetParametersFromArray.body env v (env.uninit.params (i + j))) := by
  induction values generalizing i j with
  | nil => simp [GetParametersFromArray.loop]
  | cons v values ih =>
    cases j with
    | zero => simp [GetParametersFromArray.loop]
    | succ j =>
      simp only [GetParametersFromArray.loop, List.getElem?_cons_succ, ih]
      congr 1
      funext v
      congr 2
      omega

/-- The integer `toInt` of an integer-valued dyadic double is exactly its value:
`num / 2 ^ exp` leaves no remainder. -/
theorem toInt_exact (num : Int) (exp : Nat)
    (hint : (Double.dyadic num exp).isIntegral = true) :
    (Double.dyadic num exp).toInt * (2 : Int) ^ exp = num := by
  simp only [Double.isIntegral, beq_iff_eq] at hint
  exact Int.ediv_mul_cancel (Int.dvd_of_emod_eq_zero hint)

theorem IsInt32_iff (v : Double) (hint : v.isIntegral = true) :
    (JsValue.number v).IsInt32 = true ↔ v.inInt32Range := by
  cases v <;> simp_all [JsValue.IsInt32, Double.inInt32Range, Double.isIntegral, Double.toInt]

/-- C11 (as stated, refuted): the integer-valued number `2 ^ 40` is not encoded as a
64-bit signed integer but as a double (`SQL_C_DOUBLE` / `SQL_DECIMAL`). -/
theorem GetParametersFromArray_large_integer_is_double :
    double_2_pow_40.isIntegral = true
    ∧ (GetParametersFromArray demoEnv [.number double_2_pow_40]).map
        (fun p => (p.ValueType, p.ParameterType, p.ParameterValuePtr, p.StrLen_or_IndPtr))
      = [(SQL_C_DOUBLE, SQL_DECIMAL, some (ParamBuffer.double double_2_pow_40), sizeofDouble)]
    ∧ SQL_C_DOUBLE ≠ SQL_C_SBIGINT := by
  decide

/-- C11 (amended): for every integer-valued input number in the signed 32-bit range
(minus zero apart) the descriptor is encoded as a 64-bit signed integer
(`SQL_C_SBIGINT` / `SQL_BIGINT`), its buffer holds exactly that integer value and its
length indicator is zero; an integer-valued number outside that range (or minus zero) is
encoded like every other number, as a double (`SQL_C_DOUBLE` / `SQL_DECIMAL`) whose
buffer holds the double and whose length indicator is the size of a double. -/
theorem GetParametersFromArray_integer (env : Env) (values : List JsValue) (j : Nat)
    (v : Double) (hv : values[j]? = some (.number v)) (hint : v.isIntegral = true) :
    ∃ p, (GetParametersFromArray env values)[j]? = some p
      ∧ (v.inInt32Range →
          p.ValueType = SQL_C_SBIGINT ∧ p.ParameterType = SQL_BIGINT
          ∧ p.ParameterValuePtr = some (ParamBuffer.int64 v.toInt) ∧ p.StrLen_or_IndPtr = 0)
      ∧ (¬ v.inInt32Range →
          p.ValueType = SQL_C_DOUBLE ∧ p.ParameterType = SQL_DECIMAL
          ∧ p.ParameterValuePtr = some (ParamBuffer.double v)
          ∧ p.StrLen_or_IndPtr = sizeofDouble) := by
  refine ⟨_, by rw [GetParametersFromArray, loop_getElem, hv]; rfl, ?_, ?_⟩
  · intro hr
    have h := (IsInt32_iff v hint).mpr hr
    simp [GetParametersFromArray.body, JsValue.IsString, JsValue.IsNull, h]
  · intro hr
    have h : (JsValue.number v).IsInt32 = false := by
      cases hi : (JsValue.number v).IsInt32
      · rfl
      · exact absurd ((IsInt32_iff v hint).mp hi) hr
    simp [GetParametersFromArray.body, JsValue.IsString, JsValue.IsNull, h, JsValue.IsNumber]

/-- C11 (amended) at concrete inputs: 42 is encoded as an integer, `2 ^ 40` as a
double. -/
theorem GetParametersFromArray_integer_witness :
    (∃ p, (GetParametersFromArray demoEnv [.null, .number (.dyadic 42 0)])[1]? = some p
      ∧ p.ValueType = SQL_C_SBIGINT ∧ p.ParameterType = SQL_BIGINT
      ∧ p.ParameterValuePtr = some (ParamBuffer.int64 (Double.dyadic 42 0).toInt)
      ∧ p.StrLen_or_IndPtr = 0)
    ∧ (∃ p, (GetParametersFromArray demoEnv [.number double_2_pow_40])[0]? = some p
      ∧ p.ValueType = SQL_C_DOUBLE ∧ p.ParameterType = SQL_DECIMAL
      ∧ p.ParameterValuePtr = some (ParamBuffer.double double_2_pow_40)
      ∧ p.StrLen_or_IndPtr = sizeofDouble) :=
  ⟨(GetParametersFromArray_integer demoEnv [.null, .number (.dyadic 42 0)] 1 (.dyadic 42 0)
      rfl (by decide)).imp
      (fun _ h => ⟨h.1, h.2.1 (by decide)⟩),
   (GetParametersFromArray_integer demoEnv [.number double_2_pow_40] 0 double_2_pow_40
      rfl (by decide)).imp
      (fun _ h => ⟨h.1, h.2.2 (by decide)⟩)⟩

/-- C12 (as stated, refuted): the descriptor of `undefined` is not all-zero: its
indicator/length value is the null sentinel `SQL_NULL_DATA`, which is not 0. -/
theorem GetParametersFromArray_unsupported_not_zero :
    unsupportedKind JsValue.undefined = true
    ∧ (GetParametersFromArray demoEnv [JsValue.undefined]).map Parameter.StrLen_or_IndPtr
      = [SQL_NULL_DATA]
    ∧ SQL_NULL_DATA ≠ 0 := by
  decide

/-- C12 (amended): for every input value whose dynamic kind is none of text, null,
number or boolean, the operation does not raise: it yields one descriptor per value, and
the descriptor at the position of that value has column size 0, buffer length 0, decimal
digits 0 and the null sentinel `SQL_NULL_DATA` as indicator/length value. -/
theorem GetParametersFromArray_unsupported (env : Env) (values : List JsValue) (j : Nat)
    (value : JsValue) (hv : values[j]? = some value) (hk : unsupportedKind value = true) :
    (GetParametersFromArray env values).length = values.length
    ∧ ∃ p, (GetParametersFromArray env values)[j]? = some p
      ∧ p.ColumnSize = 0 ∧ p.BufferLength = 0 ∧ p.DecimalDigits = 0
      ∧ p.StrLen_or_IndPtr = SQL_NULL_DATA := by
  refine ⟨loop_length env values 0, _,
    by rw [GetParametersFromArray, loop_getElem, hv]; rfl, ?_⟩
  cases value <;>
    simp_all [unsupportedKind, GetParametersFromArray.body, JsValue.IsString, JsValue.IsNull,
      JsValue.IsNumber, JsValue.IsBoolean, JsValue.IsInt32]

/-- C12 (amended) at a concrete input: an object between two supported values. -/
theorem GetParametersFromArray_unsupported_witness :
    (GetParametersFromArray demoEnv [.null, .object, .boolean true]).length
        = ([.null, .object, .boolean true] : List JsValue).length
    ∧ ∃ p, (GetParametersFromArray demoEnv [.null, .object, .boolean true])[1]? = some p
      ∧ p.ColumnSize = 0 ∧ p.BufferLength = 0 ∧ p.DecimalDigits = 0
      ∧ p.StrLen_or_IndPtr = SQL_NULL_DATA :=
  GetParametersFromArray_unsupported demoEnv [.null, .object, .boolean true] 1 .object rfl
    (by decide)

/-! ## GetSQLError when the first record cannot be retrieved -/

/-- C13 (evaluation at the failing inputs): when the handle declares one record and
`SQLGetDiagRec(1)` reports `SQL_NO_DATA`, the error object has neither context nor
message nor state: it only has an empty `errors` array.  When the handle declares two
records, the first call fails with `SQL_ERROR` and the second succeeds, the object still
has no context and no message, and its `errors` array has a hole at index 0.  On a
handle that declares zero records the same function does set context and message.
When `SQLGetDiagField` fails on an invalid handle and stores no count, the count is read
uninitialised; if it is not zero and every `SQLGetDiagRec` call fails as well, the
object again has only an empty `errors` array. -/
theorem GetSQLError_shape_lost_without_first_record :
    GetSQLError demoEnv
        { fieldRet := SQL_SUCCESS, number := some 1,
          recs := [{ ret := SQL_NO_DATA, state := "", message := "", native := 0 }] } "ctx"
      = { error := none, message := none, state := none, proto := none, errors := [] }
    ∧ GetSQLError demoEnv
        { fieldRet := SQL_SUCCESS, number := some 2,
          recs := [{ ret := SQL_ERROR, state := "", message := "", native := 0 },
                   { ret := SQL_SUCCESS, state := "HY000", message := "m", native := 5 }] }
        "ctx"
      = { error := none, message := none, state := none, proto := none,
          errors := [none, some { message := "m", state := "HY000" }] }
    ∧ GetSQLError demoEnv { fieldRet := SQL_SUCCESS, number := some 0, recs := [] } "ctx"
      = { error := some "ctx", message := some noDiagnosticMessage, state := none,
          proto := some "ctx", errors := [] }
    ∧ GetSQLError demoEnvCount3
        { fieldRet := SQL_INVALID_HANDLE, number := none,
          recs := [{ ret := SQL_INVALID_HANDLE, state := "", message := "", native := 0 },
                   { ret := SQL_INVALID_HANDLE, state := "", message := "", native := 0 },
                   { ret := SQL_INVALID_HANDLE, state := "", message := "", native := 0 }] }
        "ctx"
      = { error := none, message := none, state := none, proto := none, errors := [] } := by
  decide

/-! ## Release of the column descriptors -/

theorem FreeColumns_loop_freed (n i : Nat) (w : World) :
    (FreeColumns.loop n i w).freed = w.freed ++ (List.range' i n).map Block.name := by
  induction n generalizing i w with
  | zero => simp [FreeColumns.loop]
  | succ n ih => simp [FreeColumns.loop, ih, World.delete, List.range'_succ]

/-- `FreeColumns` on `n` columns deletes the `n` name buffers once each, in index order,
then the array, and leaves 0 in `*colCount`. -/
theorem FreeColumns_freed (n : Nat) (w : World) :
    (FreeColumns n w).1 = 0
    ∧ (FreeColumns n w).2.freed = w.freed ++ nameBlocks n ++ [Block.columns] := by
  simp [FreeColumns, World.delete, FreeColumns_loop_freed, nameBlocks, List.range_eq_range']

/-- C14 (evaluation at the failing input): on one column, when the first `SQLFetch`
call returns `SQL_ERROR`, `GetAllRecordsSync` returns with the array and the name buffer
allocated by `GetColumns` still live, nothing freed and the column count still 1; when
it returns `SQL_NO_DATA` instead, the name buffer and then the array are freed, nothing
stays live and the column count is 0. -/
theorem GetAllRecordsSync_keeps_columns_on_error :
    ((GetAllRecordsSync demoEnv (World.oneIntColumn [SQL_ERROR] [])).get?.map
        (fun r => r.world.heap) = some [Block.columns, Block.name 0])
    ∧ ((GetAllRecordsSync demoEnv (World.oneIntColumn [SQL_ERROR] [])).get?.map
        (fun r => r.world.freed) = some [])
    ∧ ((GetAllRecordsSync demoEnv (World.oneIntColumn [SQL_ERROR] [])).get?.map
        FetchAll.colCount = some 1)
    ∧ ((GetAllRecordsSync demoEnv (World.oneIntColumn [SQL_NO_DATA] [])).get?.map
        (fun r => r.world.heap) = some [])
    ∧ ((GetAllRecordsSync demoEnv (World.oneIntColumn [SQL_NO_DATA] [])).get?.map
        (fun r => r.world.freed) = some [Block.name 0, Block.columns])
    ∧ ((GetAllRecordsSync demoEnv (World.oneIntColumn [SQL_NO_DATA] [])).get?.map
        FetchAll.colCount = some 0) := by
  decide

/-! ## Null and the empty text in the default branch -/

theorem append_eq_empty {a t : String} (h : a ++ t = "") : a = "" := by
  have hd := congrArg String.data h
  simp only [String.data_append, List.append_eq_nil] at hd
  exact String.ext hd.1

/-- Once a text `acc` has been accumulated, a text returned by the loop of the default
branch starts with `acc`. -/
theorem text_result_extends (env : Env) (tape : List GetDataResp) (buffer : String)
    (len : Int) (acc : String) (k : Nat) (w : World) (s : String) (w' : World)
    (h : GetColumnValue.text env tape buffer len (some acc) (k + 1) w
      = .ok (Value.string s, w')) :
    ∃ t, s = acc ++ t := by
  induction tape generalizing buffer len acc k w with
  | nil =>
    simp only [GetColumnValue.text, Option.isNone_some, Bool.false_eq_true, if_false, strValue,
      Outcome.ok.injEq, Prod.mk.injEq, Value.string.injEq] at h
    exact ⟨"", by simp [← h.1]⟩
  | cons r rest ih =>
    rw [text_cons] at h
    simp only [Option.isNone_some, Bool.false_eq_true, and_false, if_false, Nat.add_eq_zero,
      one_ne_zero, Option.getD_some] at h
    split_ifs at h with h1 h2 h3 h4
    · simp only [strValue, Outcome.ok.injEq, Prod.mk.injEq, Value.string.injEq] at h
      exact ⟨"", by simp [← h.1]⟩
    · simp only [strValue, Outcome.ok.injEq, Prod.mk.injEq, Value.string.injEq] at h
      exact ⟨r.chars.getD buffer, h.1.symm⟩
    · obtain ⟨t, ht⟩ := ih _ _ _ _ _ h
      exact ⟨r.chars.getD buffer ++ t, by rw [ht, String.append_assoc]⟩
    · simp at h

/-- C16 (as stated, refuted): a succeeded call that delivers an empty chunk with the
length indicator 5, followed by `SQL_NO_DATA`, gives the empty text although no call
reported the length indicator 0. -/
theorem GetColumnValue_empty_text_without_zero_indicator :
    (GetColumnValue demoEnv (demoColumn SQL_VARCHAR)
        (World.answers [{ ret := SQL_SUCCESS, len := some 5, chars := some "" },
                        { ret := SQL_NO_DATA }])).get?.map Prod.fst
      = some (Value.string "")
    ∧ ∀ r ∈ ([{ ret := SQL_SUCCESS, len := some 5, chars := some "" },
              { ret := SQL_NO_DATA }] : List GetDataResp), r.len ≠ some 0 := by
  decide

/-- C16 (amended): in the default (text) branch of `GetColumnValue`, the one taken when
`(int) column.type` is none of the listed type codes, if the very first
`SQLGetData` call returns `SQL_NO_DATA` the result is null, not an empty text; the empty
text is returned only when the first call succeeds and delivers an empty chunk with a
length indicator that is not the null sentinel (the indicator may be 0 or not); and a
first call that succeeds with an empty chunk and the length indicator 0 does give the
empty text, so a column answered with the null sentinel or with no data (null) and a
column answered with an empty chunk (empty text) are told apart. -/
theorem GetColumnValue_null_or_empty (env : Env) (column : Column) (w : World)
    (hty : isDefaultType (toInt32 column.type) = true) :
    (∀ r rest, w.getData = r :: rest → r.ret = SQL_NO_DATA →
      GetColumnValue env column w = .ok (Value.null, { w with getData := rest }))
    ∧ (∀ w', GetColumnValue env column w = .ok (Value.string "", w') →
      ∃ r rest, w.getData = r :: rest ∧ SQL_SUCCEEDED r.ret = true
        ∧ r.chars.getD "" = "" ∧ r.len.getD 0 ≠ SQL_NULL_DATA)
    ∧ (∀ r rest, w.getData = r :: rest → SQL_SUCCEEDED r.ret = true → r.len = some 0 →
        r.chars.getD "" = "" →
      GetColumnValue env column w = .ok (Value.string "", { w with getData := rest })) := by
  rw [GetColumnValue_default env column w hty]
  refine ⟨fun r rest hw hnd => ?_, fun w' h => ?_, fun r rest hw hs hl hc => ?_⟩
  · rw [hw, text_cons]
    simp [hnd]
  · cases hw : w.getData with
    | nil =>
      rw [hw] at h
      simp [GetColumnValue.text] at h
    | cons r rest =>
      rw [hw, text_cons] at h
      simp only [Option.isNone_none, and_true, if_true] at h
      split_ifs at h with h1 h2 h3 h4 h5
      · simp at h
      · simp at h
      · simp only [strValue, Outcome.ok.injEq, Prod.mk.injEq, Value.string.injEq] at h
        exact ⟨r, rest, rfl, h3, h.1, h1⟩
      · obtain ⟨t, ht⟩ := text_result_extends _ _ _ _ _ _ _ _ _ h
        exact ⟨r, rest, rfl, h3, append_eq_empty ht.symm, h1⟩
      · simp at h
  · have hne := SQL_SUCCEEDED_ne_noData hs
    rw [hw, text_cons]
    simp [hl, hs, hne, hc, strValue, SQL_NULL_DATA]

/-- C16 (amended) at concrete inputs: a first call reporting `SQL_NO_DATA`; the run of
the counterexample, whose first call succeeds with an empty chunk; a first call that
succeeds with an empty chunk and the length indicator 0. -/
theorem GetColumnValue_null_or_empty_witness :
    (GetColumnValue demoEnv (demoColumn SQL_VARCHAR) (World.answers [{ ret := SQL_NO_DATA }])
      = .ok (Value.null, { World.answers [{ ret := SQL_NO_DATA }] with getData := [] }))
    ∧ (∃ r rest,
        (World.answers [{ ret := SQL_SUCCESS, len := some 5, chars := some "" },
                        { ret := SQL_NO_DATA }]).getData = r :: rest
        ∧ SQL_SUCCEEDED r.ret = true ∧ r.chars.getD "" = ""
        ∧ r.len.getD 0 ≠ SQL_NULL_DATA)
    ∧ (GetColumnValue demoEnv (demoColumn SQL_VARCHAR)
        (World.answers [{ ret := SQL_SUCCESS, len := some 0, chars := some "" }])
      = .ok (Value.string "",
          { World.answers [{ ret := SQL_SUCCESS, len := some 0, chars := some "" }] with
            getData := [] })) :=
  ⟨(GetColumnValue_null_or_empty demoEnv (demoColumn SQL_VARCHAR)
      (World.answers [{ ret := SQL_NO_DATA }]) (by decide)).1 _ [] rfl rfl,
   (GetColumnValue_null_or_empty demoEnv (demoColumn SQL_VARCHAR)
      (World.answers [{ ret := SQL_SUCCESS, len := some 5, chars := some "" },
                      { ret := SQL_NO_DATA }]) (by decide)).2.1
      (World.answers []) (by decide),
   (GetColumnValue_null_or_empty demoEnv (demoColumn SQL_VARCHAR)
      (World.answers [{ ret := SQL_SUCCESS, len := some 0, chars := some "" }])
      (by decide)).2.2 _ [] rfl (by decide) rfl rfl⟩

end ODBC
